import Mathlib

/-!
The package microjson: error model, responders, handler wrappers, dates and
request logging.

A shallow embedding of `responders.go`, `wrapper.go`, `json.go`, `logging.go`
and of the type `Date` of `apitypes/datetime.go` of the `microjson` package,
and the properties of the error builder, of the responses that `SendError`,
`SendObject` and `HandlerWrap` write, of the encoding of dates and of the
logged request entry. The transactional handler, whose source the package does
not hold, is modelled from the specification.

Conventions of the embedding:

* a Go `interface{}` value is a `GoValue`; a `map[string]interface{}` is an
  association list in insertion order with unique keys;
* a Go `error` is a `GoError`, and a nilable `error` is an `Option GoError`;
* the builder methods have pointer receivers that mutate and return the
  receiver; here each method maps a `builtError` to the updated `builtError`,
  so a method chain reads the same as in the source;
* an `http.ResponseWriter` is observed through the calls made on it that
  returned, and the loggers through the calls made on them (`World`); as on the
  writers of `net/http`, `WriteHeader` panics on a code outside 100..999.
-/

namespace Microjson

/-! ## Values, errors, and the observable world -/

/-- A Go value held in an `interface{}`. -/
inductive GoValue where
  | null
  | bool (b : Bool)
  | int (n : Int)
  | str (s : String)
  | list (xs : List GoValue)
  | obj (fields : List (String × GoValue))

/-- The dynamic types that `JSONBodyError` distinguishes among errors that are
not an `HTTPError`; `other` is every remaining type (`errors.New`,
`fmt.Errorf`, ...). -/
inductive ErrKind where
  | other
  | jsonSyntax
  | jsonUnmarshalField
  | jsonUnmarshalType
  | timeParse
  deriving DecidableEq, Repr

/-- The struct `builtError`, over the type `E` of the wrapped cause. -/
structure builtError (E : Type) where
  message : String
  err : Option E
  status : Int
  tags : List String
  customData : List (String × GoValue)
  plainText : Bool

/-- A non-nil Go `error`: `plain` is an error that does not implement
`HTTPError`, `custom` is a foreign implementation of `HTTPError` given by the
results of its three methods, `built` is a `*builtError`. -/
inductive GoError where
  | plain (kind : ErrKind) (text : String)
  | custom (text : String) (status : Int) (body : GoValue)
  | built (b : builtError GoError)

/-- The interface `Builder` is implemented by `*builtError` only. -/
abbrev Builder := builtError GoError

/-- A call made on the `http.ResponseWriter` that returned. `encode body` is
`json.NewEncoder(rw).Encode(body)`. -/
inductive RwCall where
  | headerAdd (key value : String)
  | writeHeader (code : Int)
  | encode (body : GoValue)

/-- A call made on a logger: `errorf` is `RequestLogEntry(req).Errorf`,
`println` is `log.Println`. -/
inductive LogCall where
  | errorf (format : String) (args : List GoValue)
  | println (args : List GoValue)

/-- The effects of a handler: the calls on the response writer and on the
loggers, oldest first. -/
structure World where
  rw : List RwCall
  log : List LogCall

/-- An `*http.Request`, as far as it is read here. -/
structure Request where
  path : String

/-! ## Standard library: `http.StatusText`, `fmt.Sprintf` -/

/-- The table of `net/http` behind `http.StatusText`. -/
def statusText : List (Int × String) :=
  [ (100, "Continue"), (101, "Switching Protocols"), (102, "Processing"),
    (103, "Early Hints"),
    (200, "OK"), (201, "Created"), (202, "Accepted"),
    (203, "Non-Authoritative Information"), (204, "No Content"),
    (205, "Reset Content"), (206, "Partial Content"), (207, "Multi-Status"),
    (208, "Already Reported"), (226, "IM Used"),
    (300, "Multiple Choices"), (301, "Moved Permanently"), (302, "Found"),
    (303, "See Other"), (304, "Not Modified"), (305, "Use Proxy"),
    (307, "Temporary Redirect"), (308, "Permanent Redirect"),
    (400, "Bad Request"), (401, "Unauthorized"), (402, "Payment Required"),
    (403, "Forbidden"), (404, "Not Found"), (405, "Method Not Allowed"),
    (406, "Not Acceptable"), (407, "Proxy Authentication Required"),
    (408, "Request Timeout"), (409, "Conflict"), (410, "Gone"),
    (411, "Length Required"), (412, "Precondition Failed"),
    (413, "Request Entity Too Large"), (414, "Request URI Too Long"),
    (415, "Unsupported Media Type"), (416, "Requested Range Not Satisfiable"),
    (417, "Expectation Failed"), (418, "I\x27m a teapot"),
    (421, "Misdirected Request"), (422, "Unprocessable Entity"),
    (423, "Locked"), (424, "Failed Dependency"), (425, "Too Early"),
    (426, "Upgrade Required"), (428, "Precondition Required"),
    (429, "Too Many Requests"), (431, "Request Header Fields Too Large"),
    (451, "Unavailable For Legal Reasons"),
    (500, "Internal Server Error"), (501, "Not Implemented"),
    (502, "Bad Gateway"), (503, "Service Unavailable"),
    (504, "Gateway Timeout"), (505, "HTTP Version Not Supported"),
    (506, "Variant Also Negotiates"), (507, "Insufficient Storage"),
    (508, "Loop Detected"), (510, "Not Extended"),
    (511, "Network Authentication Required") ]

/-- The function `http.StatusText`: the standard reason phrase of a status
code, the empty string for a code that has none. -/
def StatusText (code : Int) : String :=
  (statusText.lookup code).getD ""

/-- The constant `http.StatusInternalServerError`. -/
def StatusInternalServerError : Int := 500

/-- The constant `http.StatusBadRequest`. -/
def StatusBadRequest : Int := 400

/-- The name `fmt` prints for the type of an operand. -/
def goTypeName : GoValue → String
  | .null => "<nil>"
  | .bool _ => "bool"
  | .int _ => "int"
  | .str _ => "string"
  | .list _ => "[]interface \x7b\x7d"
  | .obj _ => "map[string]interface \x7b\x7d"

/-- The default (`%v`) rendering of a scalar operand; the composite operands
are outside the modelled fragment and render as their type name. -/
def formatValue : GoValue → String
  | .null => "<nil>"
  | .bool b => if b then "true" else "false"
  | .int n => toString n
  | .str s => s
  | v => goTypeName v

/-- What `fmt` prints for one operand under the verb `verb`: `%v` on every
scalar, `%s` on a string, `%d` on an integer; every other pairing prints the
bad-verb form `%!verb(type=value)`. -/
def printArg (arg : GoValue) (verb : Char) : List Char :=
  match verb, arg with
  | 'v', a => (formatValue a).data
  | 's', .str s => s.data
  | 'd', .int n => (toString n).data
  | c, .null => "%!".data ++ [c] ++ "(<nil>)".data
  | c, a => "%!".data ++ [c] ++ "(".data ++ (goTypeName a).data ++ "=".data
      ++ (formatValue a).data ++ ")".data

/-- The tail `fmt` appends for operands that no verb consumed. -/
def extraArgs : List GoValue → List Char
  | [] => []
  | a :: as =>
    "%!(EXTRA ".data
      ++ ", ".data.intercalate
          ((a :: as).map fun v =>
            match v with
            | .null => "<nil>".data
            | v => (goTypeName v).data ++ "=".data ++ (formatValue v).data)
      ++ ")".data

/-- The scanning loop of `fmt`'s `doPrintf` on the fragment of formats in
which a `%` is followed directly by its verb: text is copied, `%%` prints `%`,
a verb consumes the next operand, a verb with no operand left prints
`%!verb(MISSING)`, and a `%` that ends the format prints `%!(NOVERB)`. Flags,
widths, precisions and argument indexes are outside the fragment. -/
def doPrintf : List Char → List GoValue → List Char
  | [], a => extraArgs a
  | ['%'], a => "%!(NOVERB)".data ++ extraArgs a
  | '%' :: '%' :: rest, a => '%' :: doPrintf rest a
  | '%' :: c :: rest, [] => "%!".data ++ [c] ++ "(MISSING)".data ++ doPrintf rest []
  | '%' :: c :: rest, v :: a => printArg v c ++ doPrintf rest a
  | c :: rest, a => c :: doPrintf rest a

/-- The function `fmt.Sprintf`. -/
def Sprintf (format : String) (params : List GoValue) : String :=
  ⟨doPrintf format.data params⟩

/-- The function `fmt.Errorf`: an error of an unexported type of the standard
library, which does not implement `HTTPError`, with the formatted text. -/
def Errorf (format : String) (params : List GoValue) : GoError :=
  .plain .other (Sprintf format params)

/-! ## responders.go -/

/-- The constant `ErrorMessageGeneric`. -/
def ErrorMessageGeneric : String := "Unknown Server Error"

/-- The constant `ErrorMessageBadRequest`. -/
def ErrorMessageBadRequest : String := "Bad Request"

/-- The constant `ErrorMessageInvalidJSON`. -/
def ErrorMessageInvalidJSON : String := "Invalid JSON"

/-- The constant `ErrorMessageSchemaViolation`. -/
def ErrorMessageSchemaViolation : String := "Request did not match schema"

/-- Assignment `m[key] = value` on a Go map: the value of an existing key is
replaced, a new key is added. -/
def mapSet (m : List (String × GoValue)) (key : String) (value : GoValue) :
    List (String × GoValue) :=
  match m with
  | [] => [(key, value)]
  | (k, v) :: rest =>
    if k = key then (k, value) :: rest else (k, v) :: mapSet rest key value

/-- The index expression `m[key]` on a Go map, with its `ok` result as the
option. -/
def mapGet (m : List (String × GoValue)) (key : String) : Option GoValue :=
  m.lookup key

namespace builtError

/-- The method `WrappedError`. -/
def WrappedError (err : Builder) : Option GoError :=
  err.err

/-- The method `HTTPStatus`. -/
def HTTPStatus (err : Builder) : Int :=
  err.status

/-- The method `ResponseBody`. -/
def ResponseBody (err : Builder) : GoValue :=
  .obj [("status", .str (StatusText err.status)), ("message", .str err.message)]

/-- The method `Tags`. -/
def Tags (err : Builder) : List String :=
  err.tags

/-- The method `Tag`. -/
def Tag (err : Builder) (tag : List String) : Builder :=
  { err with tags := err.tags ++ tag }

/-- The method `Message`. -/
def Message (err : Builder) (format : String) (params : List GoValue) : Builder :=
  { err with message := Sprintf format params }

/-- The method `Status`. -/
def Status (err : Builder) (status : Int) : Builder :=
  let err := { err with status := status }
  if err.message = ErrorMessageGeneric ∧ status < 500 then
    { err with message := StatusText status }
  else
    err

/-- The method `Wrap`. -/
def Wrap (err : Builder) (causingError : Option GoError) : Builder :=
  { err with err := causingError }

/-- The method `PlainText`. -/
def PlainText (err : Builder) (format : String) (params : List GoValue) : Builder :=
  let err := { err with plainText := true }
  err.Message format params

/-- The method `CustomField`. -/
def CustomField (err : Builder) (key : String) (value : GoValue) : Builder :=
  { err with customData := mapSet err.customData key value }

/-- The method `GetCustomFields`. -/
def GetCustomFields (err : Builder) : List (String × GoValue) :=
  err.customData

end builtError

/-- The function `NewError`. -/
def NewError : Builder :=
  { message := ErrorMessageGeneric
    err := none
    status := StatusInternalServerError
    tags := []
    customData := []
    plainText := false }

/-- The function `WrapError`. -/
def WrapError (err : Option GoError) : Builder :=
  NewError.Wrap err

/-- The method `Error` of an error value; for a `*builtError` the text of the
wrapped cause when there is one, else the message. -/
def GoError.Error : GoError → String
  | .plain _ text => text
  | .custom text _ _ => text
  | .built ⟨message, none, _, _, _, _⟩ => message
  | .built ⟨_, some cause, _, _, _, _⟩ => cause.Error

/-- The methods of the interface `HTTPError` beyond `Error`, as the results of
a value that implements it. -/
structure HTTPError where
  HTTPStatus : Int
  ResponseBody : GoValue

/-- The type assertion `err.(HTTPError)` on a non-nil error: the asserted
value when the dynamic type implements the interface. -/
def GoError.asHTTPError : GoError → Option HTTPError
  | .plain _ _ => none
  | .custom _ status body => some ⟨status, body⟩
  | .built b => some ⟨b.HTTPStatus, b.ResponseBody⟩

/-- The call `RequestLogEntry(req).Errorf(format, args...)`. -/
def World.Errorf (w : World) (format : String) (args : List GoValue) : World :=
  { w with log := w.log ++ [.errorf format args] }

/-- The call `log.Println(args...)`. -/
def World.Println (w : World) (args : List GoValue) : World :=
  { w with log := w.log ++ [.println args] }

/-- A call on the response writer. -/
def World.call (w : World) (c : RwCall) : World :=
  { w with rw := w.rw ++ [c] }

/-- The check at the head of `WriteHeader` on the writers of `net/http` (the
server's response and `httptest.ResponseRecorder`), `checkWriteHeaderCode`:
the value with which the call panics for a code outside 100..999, `none` for a
code that is accepted. A call that panics leaves the writer as it was. -/
def checkWriteHeaderCode (code : Int) : Option GoValue :=
  if code < 100 ∨ code > 999 then
    some (.str (Sprintf "invalid WriteHeader code %v" [.int code]))
  else
    none

/-- The function `SendObject`: the world when the call returns or panics. When
`rw.WriteHeader(code)` panics the header has been added and nothing else is
done; `SendObject.panicValue` tells whether the call panics. -/
def SendObject (w : World) (_req : Request) (code : Int) (body : GoValue) : World :=
  let w := w.call (.headerAdd "Content-Type" "application/json")
  match checkWriteHeaderCode code with
  | some _ => w
  | none =>
    let w := w.call (.writeHeader code)
    w.call (.encode body)

/-- The value with which the call `SendObject(rw, req, code, body)` panics,
`none` when it returns. -/
def SendObject.panicValue (code : Int) : Option GoValue :=
  checkWriteHeaderCode code

/-- The function `SendError` on a non-nil error (on a nil error the source
dereferences nil at `err.Error()`): the world when the call returns or panics;
`SendError.panicValue` tells whether it panics. -/
def SendError (w : World) (req : Request) (err : GoError) : World :=
  match err.asHTTPError with
  | none =>
    let w := w.Errorf "Unhandled Error: %s" [.str err.Error]
    let httpError := (WrapError (some err)).Message "Unknown Error" []
    SendObject w req httpError.HTTPStatus httpError.ResponseBody
  | some httpError =>
    SendObject w req httpError.HTTPStatus httpError.ResponseBody

/-- The value with which the call `SendError(rw, req, err)` panics, which is
that of its call of `SendObject`; `none` when it returns. -/
def SendError.panicValue (err : GoError) : Option GoValue :=
  match err.asHTTPError with
  | none =>
    SendObject.panicValue ((WrapError (some err)).Message "Unknown Error" []).HTTPStatus
  | some httpError => SendObject.panicValue httpError.HTTPStatus

/-! ## wrapper.go -/

/-- How a call of the callback ends: it returns `(obj, err)`, or it panics and
`recover()` in the deferred function yields the non-nil value `r`. -/
inductive Outcome where
  | returned (obj : GoValue) (err : Option GoError)
  | panicked (r : GoValue)

/-- The body of the handler of `HandlerWrap` after its `defer` statement: the
world when control leaves the body, and what `recover()` then returns (`none`
is nil: the body did not panic). The body panics when the callback does, and
when `SendError` or `SendObject` does. -/
def handlerBody (cb : Request → Outcome) (w : World) (req : Request) :
    World × Option GoValue :=
  match cb req with
  | .panicked r => (w, some r)
  | .returned obj err =>
    match err with
    | some err => (SendError w req err, SendError.panicValue err)
    | none => (SendObject w req 200 obj, SendObject.panicValue 200)

/-- The deferred function of the handler of `HandlerWrap`; `stack` is the
text of `debug.Stack()`. -/
def handlerDeferred (stack : String) (w : World) (req : Request) :
    Option GoValue → World
  | some r =>
    let w := w.Println [.str "Recovered Panic:", r]
    let w := w.Println [.str stack]
    SendError w req (Errorf "Panic" [])
  | none => w

/-- The function `HandlerWrap`: the handler it returns, run on a request. -/
def HandlerWrap (cb : Request → Outcome) (stack : String) (w : World)
    (req : Request) : World :=
  let (w, r) := handlerBody cb w req
  handlerDeferred stack w req r

/-! ## json.go -/

/-- The function `JSONBodyError`. -/
def JSONBodyError (err : Option GoError) : Builder :=
  match err with
  | some (.plain .jsonUnmarshalField _) | some (.plain .jsonUnmarshalType _) =>
    ((WrapError err).Status StatusBadRequest).Message ErrorMessageSchemaViolation []
  | some (.plain .jsonSyntax _) =>
    ((WrapError err).Status StatusBadRequest).Message ErrorMessageInvalidJSON []
  | some (.plain .timeParse _) =>
    ((WrapError err).Status StatusBadRequest).Message ErrorMessageSchemaViolation []
  | _ => WrapError err

/-! ## Reading a body, and sequences of builder calls -/

/-- The index expression `body[key]` on a value that holds a
`map[string]interface{}`; `none` when the key is absent or the value is not a
map. -/
def GoValue.field (body : GoValue) (key : String) : Option GoValue :=
  match body with
  | .obj m => mapGet m key
  | _ => none

/-- A call on a `Builder` other than `Message` and `PlainText`. -/
inductive Call where
  | status (code : Int)
  | tag (tags : List String)
  | wrap (cause : Option GoError)
  | customField (key : String) (value : GoValue)

/-- The builder after one call. -/
def Call.apply (b : Builder) : Call → Builder
  | .status code => b.Status code
  | .tag tags => b.Tag tags
  | .wrap cause => b.Wrap cause
  | .customField key value => b.CustomField key value

/-- The builder after a chain of calls, first call first. -/
def applyCalls (b : Builder) (calls : List Call) : Builder :=
  calls.foldl Call.apply b

/-- The code passed by the most recent `Status` call of a chain, if any. -/
def lastStatus : List Call → Option Int
  | [] => none
  | .status code :: rest => (lastStatus rest).orElse fun _ => some code
  | _ :: rest => lastStatus rest

/-- The code passed by the first `Status` call of a chain that passed a code
below 500, if any. -/
def firstBelow500 : List Call → Option Int
  | [] => none
  | .status code :: rest => if code < 500 then some code else firstBelow500 rest
  | _ :: rest => firstBelow500 rest

/-- The branch that the type switch of `JSONBodyError` takes on an error: the
kind of an error of one of the four listed types, `other` for nil and for every
other dynamic type (an `HTTPError` among them). -/
def dynamicKind : Option GoError → ErrKind
  | some (.plain kind _) => kind
  | _ => .other

/-! ## apitypes/datetime.go -/

/-- The Go type `string`, under a name that the methods of `Date` do not
shadow. -/
abbrev GoString : Type := String

/-- The struct `Date`. -/
structure Date where
  Year : Int
  Month : Int
  Day : Int
  deriving DecidableEq, Repr

/-- The decimal digit of a number below ten. -/
def digitChar (k : Nat) : Char :=
  Char.ofNat (48 + k)

/-- The decimal digits of an unsigned number, most significant first: the
digit loop of `fmt`'s `fmtInteger`. -/
def decimal (u : Nat) : List Char :=
  if u < 10 then [digitChar u] else decimal (u / 10) ++ [digitChar (u % 10)]
termination_by u
decreasing_by omega

/-- What `fmt` prints for an `int` under `%0Nd` with the width `width`: the
digits, padded with zeros on the left up to the width, the sign of a negative
number first and counted in the width. -/
def fmtInteger (width : Nat) (n : Int) : List Char :=
  let digits := decimal n.natAbs
  if n < 0 then
    '-' :: (List.replicate (width - 1 - digits.length) '0' ++ digits)
  else
    List.replicate (width - digits.length) '0' ++ digits

/-- The method `Date.String`: `fmt.Sprintf("%04d-%02d-%02d", Year, Month,
Day)`. -/
def Date.String (date : Date) : String :=
  ⟨fmtInteger 4 date.Year ++ ['-'] ++ fmtInteger 2 date.Month ++ ['-']
    ++ fmtInteger 2 date.Day⟩

/-- A hexadecimal digit, lower case. -/
def hexChar (k : Nat) : Char :=
  if k < 10 then Char.ofNat (48 + k) else Char.ofNat (87 + k)

/-- What `encoding/json` writes for one character of a string: the quote and
the backslash behind a backslash, the short escapes of line feed, carriage
return and tab, the six-character `\u` form for the other control characters,
for `<`, `>`, `&` and for U+2028 and U+2029, and every other character as it
is. -/
def jsonEscape (c : Char) : List Char :=
  if c = '"' ∨ c = '\\' then ['\\', c]
  else if c = '\n' then ['\\', 'n']
  else if c = '\r' then ['\\', 'r']
  else if c = '\t' then ['\\', 't']
  else if c.toNat < 32 ∨ c = '<' ∨ c = '>' ∨ c = '&' ∨ c.toNat = 8232 ∨ c.toNat = 8233 then
    ['\\', 'u', hexChar (c.toNat / 4096 % 16), hexChar (c.toNat / 256 % 16),
      hexChar (c.toNat / 16 % 16), hexChar (c.toNat % 16)]
  else [c]

/-- The bytes of `json.Marshal(s)` for a string `s`: the escaped characters
between double quotes. -/
def jsonMarshalString (s : String) : String :=
  ⟨'"' :: (s.data.flatMap jsonEscape ++ ['"'])⟩

/-- The method `Date.MarshalJSON`; marshalling a string does not fail. -/
def Date.MarshalJSON (date : Date) : GoString × Option GoError :=
  (jsonMarshalString date.String, none)

/-- The character class `[0-9]`. -/
def isDigit09 (c : Char) : Bool :=
  decide ('0' ≤ c ∧ c ≤ '9')

/-- Whether the regular expression `reDatePartsRFC3339`,
`^[0-9]\x7b4\x7d-[0-9]\x7b2\x7d-[0-9]\x7b2\x7d$`, matches the string. -/
def reDatePartsRFC3339 (str : String) : Bool :=
  match str.data with
  | [y1, y2, y3, y4, s1, m1, m2, s2, d1, d2] =>
    isDigit09 y1 && isDigit09 y2 && isDigit09 y3 && isDigit09 y4 && s1 == '-'
      && isDigit09 m1 && isDigit09 m2 && s2 == '-' && isDigit09 d1 && isDigit09 d2
  | _ => false

/-- The call `reDatePartsRFC3339.FindStringSubmatch(str)`: the nil slice when
there is no match, else the text of the match followed by the texts of the
capture groups of the expression, of which this expression has none. -/
def FindStringSubmatch (str : String) : List String :=
  if reDatePartsRFC3339 str then [str] else []

/-- The value of a run of decimal digits, `none` when a character is not a
digit. -/
def parseDigits (acc : Nat) : List Char → Option Nat
  | [] => some acc
  | c :: rest =>
    if isDigit09 c then parseDigits (10 * acc + (c.toNat - 48)) rest else none

/-- The value that `strconv.ParseInt(s, 10, 64)` returns, its error dropped:
zero for a text that is not an optional sign and digits, and the nearest
64-bit bound for a number out of range. -/
def ParseInt (s : String) : Int :=
  let (neg, ds) :=
    match s.data with
    | '-' :: ds => (true, ds)
    | '+' :: ds => (false, ds)
    | ds => (false, ds)
  match ds, parseDigits 0 ds with
  | [], _ => 0
  | _, none => 0
  | _, some u =>
    if neg then (if u > 2 ^ 63 then -(2 ^ 63 : Int) else -(u : Int))
    else (if u > 2 ^ 63 - 1 then (2 ^ 63 - 1 : Int) else (u : Int))

/-- The function `ParseDate`. -/
def ParseDate (str : String) : Date × Bool :=
  let matchParts := FindStringSubmatch str
  if matchParts.length ≠ 4 then
    (⟨0, 0, 0⟩, false)
  else
    let year := ParseInt (matchParts.getD 1 "")
    let month := ParseInt (matchParts.getD 2 "")
    let day := ParseInt (matchParts.getD 3 "")
    (⟨year, month, day⟩, true)

/-- The method `Date.UnmarshalJSON`: the receiver after the call and the error
returned. `unmarshal data` is `json.Unmarshal(data, &str)` on the fresh
variable `str := ""`: its error, or the value of `str` after it. -/
def Date.UnmarshalJSON (unmarshal : GoString → Except GoError GoString) (date : Date)
    (data : GoString) : Date × Option GoError :=
  match unmarshal data with
  | .error err => (date, some err)
  | .ok str =>
    let (d, ok) := ParseDate str
    if !ok then
      (date, some (Errorf "invalid date format %s" [.str str]))
    else
      ({ Year := d.Year, Month := d.Month, Day := d.Day }, none)

/-- The call `json.Unmarshal(data, &str)` on the documents that are a string
literal without escapes, which is stored, or `null`, which leaves `str` empty;
every other document is reported as an error. -/
def jsonUnmarshalString (data : String) : Except GoError String :=
  if data = "null" then .ok ""
  else
    match data.data with
    | '"' :: rest =>
      match rest.reverse with
      | '"' :: body =>
        if body.all fun c => c != '"' && c != '\\' && decide (32 ≤ c.toNat) then
          .ok ⟨body.reverse⟩
        else .error (.plain .jsonSyntax "invalid string literal")
      | _ => .error (.plain .jsonSyntax "unexpected end of JSON input")
    | _ => .error (.plain .jsonUnmarshalType "cannot unmarshal into Go value of type string")

/-! ## logging.go -/

/-- The struct `statusRecorder`: the embedded `http.ResponseWriter`, seen as
the calls that reached it, and the recorded status. -/
structure statusRecorder where
  ResponseWriter : List RwCall
  status : Int

/-- The method `statusRecorder.WriteHeader`. -/
def statusRecorder.WriteHeader (recorder : statusRecorder) (status : Int) :
    statusRecorder :=
  let recorder := { recorder with status := status }
  { recorder with ResponseWriter := recorder.ResponseWriter ++ [.writeHeader status] }

/-- A call of a handler on a `*statusRecorder`: `WriteHeader` is the method of
the recorder, every other method is promoted from the embedded writer. -/
def statusRecorder.call (recorder : statusRecorder) : RwCall → statusRecorder
  | .writeHeader status => recorder.WriteHeader status
  | c => { recorder with ResponseWriter := recorder.ResponseWriter ++ [c] }

/-- A `*logrus.Entry`: its fields. -/
structure Entry where
  Data : List (String × GoValue)

/-- The method `Entry.WithFields` of logrus: a new entry with the fields of
the receiver and the given fields, a given field replacing one of the same
name. -/
def Entry.WithFields (entry : Entry) (fields : List (String × GoValue)) : Entry :=
  ⟨fields.foldl (fun data kv => mapSet data kv.1 kv.2) entry.Data⟩

/-- What one run of the handler of `LoggingMiddleware` leaves: the recorder,
whose embedded writer is the writer of the request, and the entry and message
of the one call `entry.Info`. -/
structure Logged where
  rwRecorder : statusRecorder
  entry : Entry
  message : String

/-- The function `LoggingMiddleware`: the handler it returns around `next`,
run on a request. A handler is the calls it makes on its writer; `url` is
`req.URL.String()`, `duration` is the value of
`start.Sub(time.Now()).Seconds()`, read from the clock when the entry is
built, and `route` is the name of `mux.CurrentRoute(req)`, if there is one. -/
def LoggingMiddleware (rootEntry : Entry) (next : Request → List RwCall)
    (url : String) (duration : GoValue) (route : Option String)
    (rw : List RwCall) (req : Request) : Logged :=
  let rwRecorder : statusRecorder := { status := 200, ResponseWriter := rw }
  let entry := rootEntry.WithFields
    [("url", .str url), ("status", .int rwRecorder.status), ("duration", duration)]
  let rwRecorder := (next req).foldl statusRecorder.call rwRecorder
  let entry :=
    match route with
    | some name => entry.WithFields [("route", .str name)]
    | none => entry
  { rwRecorder := rwRecorder, entry := entry, message := "Request" }

/-! ## The transactional handler

The tests of the package exercise `TxWrapper.TxHandler`, `Tx.DeferPublish` and
`MessagePublisher`; their source is not part of the package, so they are
modelled from sections 4.1, 4.2, 6 and 7 of the specification. -/

/-- Modelled from the spec: the database handle of `TxWrapper` (section 6:
begin-transaction, commit, rollback), which is missing from the source, as the
results of its calls during one request; `none` is success, and an error is
the text of a driver error, which is not an `HTTPError`. -/
structure SqlDB where
  beginErr : Option String
  commitErr : Option String
  rollbackErr : Option String

/-- Modelled from the spec: the interface `MessagePublisher` (section 6),
which is missing from the source: one operation, publish a message, with an
optional error. -/
structure MessagePublisher where
  Publish : GoValue → Option String

/-- Modelled from the spec: the struct `TxWrapper` (section 4.1, "handler-level
configuration"), which is missing from the source: a database handle and the
mapping of publisher names. -/
structure TxWrapper where
  DB : SqlDB
  Publishers : List (String × MessagePublisher)

/-- Modelled from the spec: the effects of the transactional handler besides
the response, which the missing source would make on the database and on the
publishers: a call with its result. `publish` is a message handed to the
publisher registered under the name. -/
inductive TxEvent where
  | begin (err : Option String)
  | commit (err : Option String)
  | rollback (err : Option String)
  | publish (name : String) (message : GoValue) (err : Option String)

/-- Modelled from the spec: the world of the transactional handler, missing
from the source: response and log, and the database and publisher events,
oldest first. -/
structure TxWorld where
  world : World
  events : List TxEvent

/-- Modelled from the spec: one call of a business function of the missing
`TxHandler` (section 4.2): the `DeferPublish(name, message)` calls it made on
its `Tx`, in order, which only record the pair, and how the call ended. -/
structure TxRun where
  deferred : List (String × GoValue)
  outcome : Outcome

/-- Modelled from the spec: the rollback of the missing `TxHandler` (section
7, "Rollback failure: logged only"). -/
def txRollback (db : SqlDB) (w : TxWorld) : TxWorld :=
  let w := { w with events := w.events ++ [.rollback db.rollbackErr] }
  match db.rollbackErr with
  | some e => { w with world := w.world.Errorf "Rollback failed: %s" [.str e] }
  | none => w

/-- Modelled from the spec: the drain of the deferred publish registry of the
missing `TxHandler` (sections 4.1 and 7): each entry goes to its named
publisher in registration order; a publish failure is logged only, and an
entry whose name is not registered is logged and skipped. -/
def drain (publishers : List (String × MessagePublisher)) :
    TxWorld → List (String × GoValue) → TxWorld
  | w, [] => w
  | w, (name, message) :: rest =>
    match publishers.lookup name with
    | none =>
      drain publishers
        { w with world := w.world.Errorf "Publisher %s is not registered" [.str name] } rest
    | some publisher =>
      let err := publisher.Publish message
      let w := { w with events := w.events ++ [.publish name message err] }
      match err with
      | some e =>
        drain publishers
          { w with world := w.world.Errorf "Publish to %s failed: %s" [.str name, .str e] }
          rest
      | none => drain publishers w rest

/-- Modelled from the spec: the method `TxWrapper.TxHandler` (section 4.1),
which is missing from the source: the handler it returns around the business
function `fn`, run on a request. Begin; on failure answer with the error and
stop. Else call `fn`: on a result without error commit, and after a commit
that succeeds drain the registry and answer 200 with the result, after a
commit that fails roll back and answer with the error; on an error roll back
and answer with the error; on a panic roll back, log the value and the stack,
and answer with the generic 500, as `HandlerWrap` does. -/
def TxWrapper.TxHandler (wrapper : TxWrapper) (fn : Request → TxRun) (stack : String)
    (w : TxWorld) (req : Request) : TxWorld :=
  let w := { w with events := w.events ++ [.begin wrapper.DB.beginErr] }
  match wrapper.DB.beginErr with
  | some e => { w with world := SendError w.world req (.plain .other e) }
  | none =>
    let run := fn req
    match run.outcome with
    | .panicked r =>
      let w := txRollback wrapper.DB w
      let world := (w.world.Println [.str "Recovered Panic:", r]).Println [.str stack]
      { w with world := SendError world req (Errorf "Panic" []) }
    | .returned _ (some err) =>
      let w := txRollback wrapper.DB w
      { w with world := SendError w.world req err }
    | .returned obj none =>
      let w := { w with events := w.events ++ [.commit wrapper.DB.commitErr] }
      match wrapper.DB.commitErr with
      | some e =>
        let w := txRollback wrapper.DB w
        { w with world := SendError w.world req (.plain .other e) }
      | none =>
        let w := drain wrapper.Publishers w run.deferred
        { w with world := SendObject w.world req 200 obj }

/-- Whether a call of a callback or business function ended with a result
and a nil error. -/
def Outcome.isSuccess : Outcome → Bool
  | .returned _ none => true
  | _ => false

/-- The number of commit calls among the events. -/
def commitCalls (events : List TxEvent) : Nat :=
  events.countP fun e => match e with
    | .commit _ => true
    | _ => false

/-- The number of rollback calls among the events. -/
def rollbackCalls (events : List TxEvent) : Nat :=
  events.countP fun e => match e with
    | .rollback _ => true
    | _ => false

/-- Whether a commit succeeded among the events. -/
def committed (events : List TxEvent) : Bool :=
  events.any fun e => match e with
    | .commit none => true
    | _ => false

/-- The messages handed to publishers, with the name of the publisher, in the
order of the events. -/
def delivered (events : List TxEvent) : List (String × GoValue) :=
  events.filterMap fun e => match e with
    | .publish name message _ => some (name, message)
    | _ => none

/-- The events that follow the first commit that succeeded; none when no
commit succeeded. -/
def afterCommit : List TxEvent → List TxEvent
  | [] => []
  | .commit none :: rest => rest
  | _ :: rest => afterCommit rest

/-- The status codes passed to `WriteHeader`, in order. -/
def statusCodes (calls : List RwCall) : List Int :=
  calls.filterMap fun c => match c with
    | .writeHeader code => some code
    | _ => none

/-! ## Properties -/

/-- No reason phrase of the table is the generic message. -/
theorem statusText_ne_generic (code : Int) : StatusText code ≠ ErrorMessageGeneric := by
  have key : ∀ (t : List (Int × String)), (∀ p ∈ t, p.2 ≠ ErrorMessageGeneric) →
      (t.lookup code).getD "" ≠ ErrorMessageGeneric := by
    intro t
    induction t with
    | nil => intro _; simp [ErrorMessageGeneric]
    | cons p t ih =>
      intro h
      obtain ⟨k, s⟩ := p
      by_cases hk : code = k
      · subst hk
        simpa [List.lookup] using h (code, s) (by simp)
      · have hb : (code == k) = false := by simpa using hk
        simp only [List.lookup, hb]
        exact ih fun q hq => h q (List.mem_cons_of_mem _ hq)
  exact key statusText (by decide)

/-- The reason phrase of 400. -/
theorem StatusText_400 : StatusText 400 = "Bad Request" := by decide

/-- The reason phrase of 404. -/
theorem StatusText_404 : StatusText 404 = "Not Found" := by decide

/-- The reason phrase of 500. -/
theorem StatusText_500 : StatusText 500 = "Internal Server Error" := by decide

/-- A format without `%` and without operands is printed as it is. -/
theorem doPrintf_plain (cs : List Char) (h : '%' ∉ cs) : doPrintf cs [] = cs := by
  induction cs with
  | nil => simp [doPrintf, extraArgs]
  | cons c rest ih =>
    have hc : c ≠ '%' := fun e => h (by simp [e])
    have hr : '%' ∉ rest := fun e => h (List.mem_cons_of_mem _ e)
    rw [doPrintf]
    · rw [ih hr]
    all_goals intros; exact hc (by assumption)

/-- `Sprintf` on a format without `%` and without operands. -/
theorem Sprintf_plain (m : String) (h : '%' ∉ m.data) : Sprintf m [] = m := by
  simp [Sprintf, doPrintf_plain m.data h]

/-- The status after `Status` is the code passed. -/
theorem Status_status (b : Builder) (x : Int) : (b.Status x).status = x := by
  simp only [builtError.Status]
  split <;> rfl

/-- The status after a chain of calls: the code of the most recent `Status`
call, the status before the chain when there is none. -/
theorem applyCalls_status (calls : List Call) (b : Builder) :
    (applyCalls b calls).status = (lastStatus calls).getD b.status := by
  induction calls generalizing b with
  | nil => simp [applyCalls, lastStatus]
  | cons call rest ih =>
    have step : applyCalls b (call :: rest) = applyCalls (call.apply b) rest := rfl
    rw [step, ih]
    cases call with
    | status code =>
      simp only [Call.apply, lastStatus, Status_status]
      cases lastStatus rest <;> simp [Option.orElse]
    | tag tags => simp [Call.apply, lastStatus, builtError.Tag]
    | wrap cause => simp [Call.apply, lastStatus, builtError.Wrap]
    | customField key value => simp [Call.apply, lastStatus, builtError.CustomField]

/-- A message other than the generic one survives a chain of calls. -/
theorem applyCalls_message_set (calls : List Call) (b : Builder)
    (h : b.message ≠ ErrorMessageGeneric) :
    (applyCalls b calls).message = b.message := by
  induction calls generalizing b with
  | nil => simp [applyCalls]
  | cons call rest ih =>
    have step : applyCalls b (call :: rest) = applyCalls (call.apply b) rest := rfl
    have keep : (call.apply b).message = b.message := by
      cases call <;>
        simp [Call.apply, builtError.Status, builtError.Tag, builtError.Wrap,
          builtError.CustomField, h]
    rw [step, ih _ (by rw [keep]; exact h), keep]

/-- The message after a chain of calls on a builder that holds the generic
message: the reason phrase of the first code below 500 passed to `Status`, the
generic message when no such code was passed. -/
theorem applyCalls_message_generic (calls : List Call) (b : Builder)
    (h : b.message = ErrorMessageGeneric) :
    (applyCalls b calls).message
      = (match firstBelow500 calls with
          | some x => StatusText x
          | none => ErrorMessageGeneric) := by
  induction calls generalizing b with
  | nil => simp [applyCalls, firstBelow500, h]
  | cons call rest ih =>
    have step : applyCalls b (call :: rest) = applyCalls (call.apply b) rest := rfl
    rw [step]
    cases call with
    | status code =>
      by_cases hc : code < 500
      · have hm : (b.Status code).message = StatusText code := by
          simp [builtError.Status, h, hc]
        simp only [Call.apply, firstBelow500, hc, if_true]
        rw [applyCalls_message_set rest _ (by rw [hm]; exact statusText_ne_generic code), hm]
      · have hm : (b.Status code).message = ErrorMessageGeneric := by
          simp [builtError.Status, h, hc]
        simp only [Call.apply, firstBelow500, hc, if_false]
        exact ih _ hm
    | tag tags => exact ih _ (by simpa [Call.apply, builtError.Tag] using h)
    | wrap cause => exact ih _ (by simpa [Call.apply, builtError.Wrap] using h)
    | customField key value =>
      exact ih _ (by simpa [Call.apply, builtError.CustomField] using h)

/-- Reading a key of a map after assigning it. -/
theorem mapGet_mapSet (m : List (String × GoValue)) (key : String) (value : GoValue) :
    mapGet (mapSet m key value) key = some value := by
  induction m with
  | nil => simp [mapSet, mapGet, List.lookup]
  | cons p rest ih =>
    obtain ⟨k, v⟩ := p
    by_cases hk : k = key
    · simp [mapSet, mapGet, List.lookup, hk]
    · have hb : (key == k) = false := by simpa using fun e => hk e.symm
      simp only [mapSet, hk, if_false, mapGet, List.lookup, hb]
      exact ih

/-- The response of `SendError` on an error that implements `HTTPError`. -/
theorem SendError_http (w : World) (req : Request) (e : GoError) (h : HTTPError)
    (he : e.asHTTPError = some h) :
    SendError w req e = SendObject w req h.HTTPStatus h.ResponseBody := by
  simp [SendError, he]

/-- The response of `SendError` on a `*builtError`. -/
theorem SendError_built (w : World) (req : Request) (b : Builder) :
    SendError w req (.built b) = SendObject w req b.HTTPStatus b.ResponseBody :=
  SendError_http w req (.built b) ⟨b.HTTPStatus, b.ResponseBody⟩ rfl

/-- A code from 100 to 999 passes the check of `WriteHeader`. -/
theorem checkWriteHeaderCode_valid (code : Int) (h : 100 ≤ code ∧ code ≤ 999) :
    checkWriteHeaderCode code = none := by
  have hn : ¬ (code < 100 ∨ code > 999) := by omega
  simp [checkWriteHeaderCode, hn]

/-- A code outside 100..999 makes `WriteHeader` panic. -/
theorem checkWriteHeaderCode_invalid (code : Int) (h : code < 100 ∨ code > 999) :
    checkWriteHeaderCode code
      = some (.str (Sprintf "invalid WriteHeader code %v" [.int code])) := by
  simp [checkWriteHeaderCode, h]

/-- The calls `SendObject` adds on the response writer for a status code that
the writer accepts. -/
theorem SendObject_rw (w : World) (req : Request) (code : Int) (body : GoValue)
    (h : 100 ≤ code ∧ code ≤ 999) :
    (SendObject w req code body).rw
      = w.rw ++ [.headerAdd "Content-Type" "application/json", .writeHeader code,
          .encode body] := by
  simp [SendObject, World.call, checkWriteHeaderCode_valid code h]

/-- The calls `SendObject` adds on the response writer when `WriteHeader`
panics: the header only. -/
theorem SendObject_rw_invalid (w : World) (req : Request) (code : Int) (body : GoValue)
    (h : code < 100 ∨ code > 999) :
    (SendObject w req code body).rw
      = w.rw ++ [.headerAdd "Content-Type" "application/json"] := by
  simp [SendObject, World.call, checkWriteHeaderCode_invalid code h]

/-- `SendObject` leaves the log as it was. -/
theorem SendObject_log (w : World) (req : Request) (code : Int) (body : GoValue) :
    (SendObject w req code body).log = w.log := by
  unfold SendObject
  cases checkWriteHeaderCode code <;> rfl

/-- The response of `SendObject` depends on the writer only. -/
theorem SendObject_rw_congr (w1 w2 : World) (req : Request) (code : Int)
    (body : GoValue) (h : w1.rw = w2.rw) :
    (SendObject w1 req code body).rw = (SendObject w2 req code body).rw := by
  unfold SendObject
  cases checkWriteHeaderCode code <;> simp [World.call, h]

/-- `SendError` does not panic on an error that does not implement
`HTTPError`: the status it sends is 500. -/
theorem SendError_panicValue_unknown (e : GoError) (he : e.asHTTPError = none) :
    SendError.panicValue e = none := by
  have h500 : ((WrapError (some e)).Message "Unknown Error" []).HTTPStatus = 500 := rfl
  simp only [SendError.panicValue, he, SendObject.panicValue, h500]
  exact checkWriteHeaderCode_valid 500 (by decide)

/-- `SendObject` does not panic on the status 200. -/
theorem SendObject_panicValue_200 : SendObject.panicValue 200 = none :=
  checkWriteHeaderCode_valid 200 (by decide)

/-- The response of `SendError` on an error that does not implement
`HTTPError`. -/
theorem SendError_unknown_rw (w : World) (req : Request) (e : GoError)
    (he : e.asHTTPError = none) :
    (SendError w req e).rw
      = w.rw ++ [.headerAdd "Content-Type" "application/json", .writeHeader 500,
          .encode (.obj [("status", .str "Internal Server Error"),
            ("message", .str "Unknown Error")])] := by
  have hs : StatusText 500 = "Internal Server Error" := by decide
  have hm : Sprintf "Unknown Error" [] = "Unknown Error" := by decide
  have hc : checkWriteHeaderCode 500 = none := checkWriteHeaderCode_valid 500 (by decide)
  simp [SendError, he, SendObject, World.call, World.Errorf, WrapError, NewError,
    builtError.Wrap, builtError.Message, builtError.HTTPStatus,
    builtError.ResponseBody, StatusInternalServerError, hs, hm, hc]

/-- C1: for every (non-nil) error `e` that does not implement `HTTPError`,
`SendError` adds exactly one response on the writer: the `Content-Type:
application/json` header, status 500, and the encoded body
`{"status": "Internal Server Error", "message": "Unknown Error"}`. The calls do
not mention `e`, so the response is the same for every such error and the text
of `e` is not part of it. -/
theorem C1_SendError_unknown_error (w : World) (req : Request) (e : GoError)
    (he : e.asHTTPError = none) :
    (SendError w req e).rw
      = w.rw ++ [.headerAdd "Content-Type" "application/json", .writeHeader 500,
          .encode (.obj [("status", .str "Internal Server Error"),
            ("message", .str "Unknown Error")])] :=
  SendError_unknown_rw w req e he

/-- Witness of C1: the error `fmt.Errorf("Unhandled Error")` on a fresh
writer. -/
theorem C1_SendError_unknown_error_witness :
    (Errorf "Unhandled Error" []).asHTTPError = none ∧
    (SendError ⟨[], []⟩ ⟨"/error"⟩ (Errorf "Unhandled Error" [])).rw
      = [.headerAdd "Content-Type" "application/json", .writeHeader 500,
          .encode (.obj [("status", .str "Internal Server Error"),
            ("message", .str "Unknown Error")])] :=
  ⟨rfl, C1_SendError_unknown_error ⟨[], []⟩ ⟨"/error"⟩ (Errorf "Unhandled Error" []) rfl⟩

/-- C2: when the callback panics, with any recovered value `r`, the handler of
`HandlerWrap` adds the header, status 500 and the fixed body with message
"Unknown Error" on the writer; this is the response it writes when the
callback returns any error that does not implement `HTTPError`, and `r` is not
part of it. -/
theorem C2_HandlerWrap_panic (cb : Request → Outcome) (stack : String) (w : World)
    (req : Request) (r : GoValue) (hcb : cb req = .panicked r) :
    (HandlerWrap cb stack w req).rw
        = w.rw ++ [.headerAdd "Content-Type" "application/json", .writeHeader 500,
            .encode (.obj [("status", .str "Internal Server Error"),
              ("message", .str "Unknown Error")])]
    ∧ ∀ (obj : GoValue) (e : GoError), e.asHTTPError = none →
        (HandlerWrap cb stack w req).rw
          = (HandlerWrap (fun _ => .returned obj (some e)) stack w req).rw := by
  have hp : (HandlerWrap cb stack w req).rw
      = w.rw ++ [.headerAdd "Content-Type" "application/json", .writeHeader 500,
          .encode (.obj [("status", .str "Internal Server Error"),
            ("message", .str "Unknown Error")])] := by
    simp only [HandlerWrap, handlerBody, hcb, handlerDeferred]
    rw [SendError_unknown_rw _ _ (Errorf "Panic" []) rfl]
    simp [World.Println]
  refine ⟨hp, fun obj e he => ?_⟩
  rw [hp]
  simp only [HandlerWrap, handlerBody, SendError_panicValue_unknown e he, handlerDeferred]
  rw [SendError_unknown_rw _ _ _ he]

/-- Witness of C2: the callback of the tests, which panics with the string
"Panic As Requested". -/
theorem C2_HandlerWrap_panic_witness :
    (HandlerWrap (fun _ => .panicked (.str "Panic As Requested")) "" ⟨[], []⟩
        ⟨"/panic"⟩).rw
      = [.headerAdd "Content-Type" "application/json", .writeHeader 500,
          .encode (.obj [("status", .str "Internal Server Error"),
            ("message", .str "Unknown Error")])] :=
  (C2_HandlerWrap_panic (fun _ => .panicked (.str "Panic As Requested")) ""
    ⟨[], []⟩ ⟨"/panic"⟩ (.str "Panic As Requested") rfl).1

/-- C3: when the callback returns `(obj, nil)`, the handler of `HandlerWrap`
does what `SendObject(rw, req, 200, obj)` does and nothing else: it adds the
`Content-Type: application/json` header, status 200 and the JSON encoding of
`obj` on the writer, once, and logs nothing (`SendError` is not run). -/
theorem C3_HandlerWrap_success (cb : Request → Outcome) (stack : String) (w : World)
    (req : Request) (obj : GoValue) (hcb : cb req = .returned obj none) :
    HandlerWrap cb stack w req = SendObject w req 200 obj
    ∧ (HandlerWrap cb stack w req).rw
        = w.rw ++ [.headerAdd "Content-Type" "application/json", .writeHeader 200,
            .encode obj]
    ∧ (HandlerWrap cb stack w req).log = w.log := by
  have h : HandlerWrap cb stack w req = SendObject w req 200 obj := by
    simp [HandlerWrap, handlerBody, hcb, handlerDeferred, SendObject_panicValue_200]
  refine ⟨h, ?_, ?_⟩
  · rw [h, SendObject_rw _ _ _ _ (by decide)]
  · rw [h, SendObject_log]

/-- Witness of C3: the callback of the tests, which returns `("Hello", nil)`. -/
theorem C3_HandlerWrap_success_witness :
    (HandlerWrap (fun _ => .returned (.str "Hello") none) "" ⟨[], []⟩ ⟨"/hello"⟩).rw
      = [.headerAdd "Content-Type" "application/json", .writeHeader 200,
          .encode (.str "Hello")] :=
  (C3_HandlerWrap_success (fun _ => .returned (.str "Hello") none) "" ⟨[], []⟩
    ⟨"/hello"⟩ (.str "Hello") rfl).2.1

/-- The handler of `HandlerWrap` when the callback returns an `HTTPError` whose
status the writer does not accept: `WriteHeader` panics in `SendError`, the
deferred function recovers and sends the generic 500, after a second
`Content-Type` header. -/
theorem HandlerWrap_http_invalid (cb : Request → Outcome) (stack : String) (w : World)
    (req : Request) (obj : GoValue) (e : GoError) (h : HTTPError)
    (he : e.asHTTPError = some h) (hcb : cb req = .returned obj (some e))
    (hs : h.HTTPStatus < 100 ∨ h.HTTPStatus > 999) :
    (HandlerWrap cb stack w req).rw
      = w.rw ++ [.headerAdd "Content-Type" "application/json",
          .headerAdd "Content-Type" "application/json", .writeHeader 500,
          .encode (.obj [("status", .str "Internal Server Error"),
            ("message", .str "Unknown Error")])] := by
  have hp : SendError.panicValue e
      = some (.str (Sprintf "invalid WriteHeader code %v" [.int h.HTTPStatus])) := by
    simp only [SendError.panicValue, he, SendObject.panicValue]
    exact checkWriteHeaderCode_invalid _ hs
  simp only [HandlerWrap, handlerBody, hcb, hp, handlerDeferred]
  rw [SendError_unknown_rw _ _ (Errorf "Panic" []) rfl]
  simp only [World.Println]
  rw [SendError_http w req e h he, SendObject_rw_invalid _ _ _ _ hs]
  simp

/-- C4 as stated fails on a status that the writer does not accept: the error
`NewError().Status(0)` implements `HTTPError` with status 0, `WriteHeader(0)`
panics, so `SendError` adds the header and writes neither the status nor the
body, and the handler of `HandlerWrap` recovers and answers with the generic
500 instead of the status and body of the error. -/
theorem C4_SendError_http_error_counterexample :
    (GoError.built (NewError.Status 0)).asHTTPError
        = some ⟨0, .obj [("status", .str ""), ("message", .str "")]⟩
    ∧ (SendError ⟨[], []⟩ ⟨"/user-error"⟩ (.built (NewError.Status 0))).rw
        = [.headerAdd "Content-Type" "application/json"]
    ∧ SendError.panicValue (.built (NewError.Status 0))
        = some (.str "invalid WriteHeader code 0")
    ∧ (HandlerWrap (fun _ => .returned (.str "Hello") (some (.built (NewError.Status 0))))
          "" ⟨[], []⟩ ⟨"/user-error"⟩).rw
        = [.headerAdd "Content-Type" "application/json",
            .headerAdd "Content-Type" "application/json", .writeHeader 500,
            .encode (.obj [("status", .str "Internal Server Error"),
              ("message", .str "Unknown Error")])] := by
  have h0 : StatusText 0 = "" := by decide
  have he : (GoError.built (NewError.Status 0)).asHTTPError
      = some ⟨0, .obj [("status", .str ""), ("message", .str "")]⟩ := by
    simp [GoError.asHTTPError, builtError.HTTPStatus, builtError.ResponseBody,
      builtError.Status, NewError, ErrorMessageGeneric, h0]
  have hf : Sprintf "invalid WriteHeader code %v" [.int 0] = "invalid WriteHeader code 0" := by
    decide
  refine ⟨he, ?_, ?_, ?_⟩
  · rw [SendError_http _ _ _ _ he, SendObject_rw_invalid _ _ _ _ (by decide)]
    rfl
  · simp only [SendError.panicValue, he, SendObject.panicValue]
    rw [checkWriteHeaderCode_invalid 0 (by decide), hf]
  · exact HandlerWrap_http_invalid _ "" ⟨[], []⟩ ⟨"/user-error"⟩ (.str "Hello") _ _ he rfl
      (by decide)

/-- C4, amended: for every error `e` that implements `HTTPError` and whose
`HTTPStatus()` is a code that the response writer accepts, from 100 to 999,
`SendError` returns after adding the header, the status `e.HTTPStatus()` and
the encoded `e.ResponseBody()` on the writer, and logs nothing; the handler of
`HandlerWrap` whose callback returns `(obj, e)` does exactly that, so `obj` is
not written; and a builder on which `Status(S)` was called,
`NewError().Status(S)` among them, implements `HTTPError` with status `S`. -/
theorem C4_SendError_http_error (cb : Request → Outcome) (stack : String) (w : World)
    (req : Request) (obj : GoValue) (e : GoError) (h : HTTPError)
    (he : e.asHTTPError = some h) (hcb : cb req = .returned obj (some e))
    (hs : 100 ≤ h.HTTPStatus ∧ h.HTTPStatus ≤ 999) :
    (SendError w req e).rw
        = w.rw ++ [.headerAdd "Content-Type" "application/json",
            .writeHeader h.HTTPStatus, .encode h.ResponseBody]
    ∧ (SendError w req e).log = w.log
    ∧ SendError.panicValue e = none
    ∧ HandlerWrap cb stack w req = SendError w req e
    ∧ ∀ (b : Builder) (S : Int), (GoError.built (b.Status S)).asHTTPError
        = some ⟨S, (b.Status S).ResponseBody⟩ := by
  have hp : SendError.panicValue e = none := by
    simp only [SendError.panicValue, he, SendObject.panicValue]
    exact checkWriteHeaderCode_valid _ hs
  refine ⟨?_, ?_, hp, ?_, ?_⟩
  · rw [SendError_http w req e h he, SendObject_rw _ _ _ _ hs]
  · rw [SendError_http w req e h he, SendObject_log]
  · simp [HandlerWrap, handlerBody, hcb, hp, handlerDeferred]
  · intro b S
    simp only [GoError.asHTTPError, builtError.HTTPStatus, Status_status]

/-- Witness of C4: the callback returns `NewError().Status(400)` beside a
result object. -/
theorem C4_SendError_http_error_witness :
    (SendError ⟨[], []⟩ ⟨"/user-error"⟩ (.built (NewError.Status 400))).rw
      = [.headerAdd "Content-Type" "application/json", .writeHeader 400,
          .encode (.obj [("status", .str "Bad Request"),
            ("message", .str "Bad Request")])] :=
  (C4_SendError_http_error
    (fun _ => .returned (.str "Hello") (some (.built (NewError.Status 400)))) ""
    ⟨[], []⟩ ⟨"/user-error"⟩ (.str "Hello") (.built (NewError.Status 400))
    ⟨400, .obj [("status", .str "Bad Request"), ("message", .str "Bad Request")]⟩
    (by simp [GoError.asHTTPError, builtError.HTTPStatus, builtError.ResponseBody,
      builtError.Status, NewError, ErrorMessageGeneric, StatusText_400])
    rfl (by decide)).1

/-- C5 as stated fails: a message text is a format, and `Message("100%")`
stores what `fmt.Sprintf("100%")` prints, so the body carries the message
`100%!(NOVERB)` and not `100%`. -/
theorem C5_message_round_trip_counterexample :
    (((NewError.Status 400).Message "100%" []).ResponseBody).field "message"
        = some (.str "100%!(NOVERB)")
    ∧ ((NewError.Status 400).Message "100%" []).ResponseBody
        ≠ .obj [("status", .str (StatusText 400)), ("message", .str "100%")] := by
  have hm : Sprintf "100%" [] = "100%!(NOVERB)" := by decide
  constructor
  · simp [builtError.ResponseBody, builtError.Message, GoValue.field, mapGet,
      List.lookup, hm]
  · simp [builtError.ResponseBody, builtError.Message, hm]

/-- C5, amended: for every status code `x` and every message string `m` that
contains no `%`, the body of `NewError().Status(x).Message(m)` has the standard
reason phrase of `x` as "status" and `m` as "message". -/
theorem C5_message_round_trip (x : Int) (m : String) (hm : '%' ∉ m.data) :
    ((NewError.Status x).Message m []).ResponseBody
      = .obj [("status", .str (StatusText x)), ("message", .str m)] := by
  simp [builtError.ResponseBody, builtError.Message, Status_status,
    Sprintf_plain m hm]

/-- Witness of C5: status 400 and the message "Test". -/
theorem C5_message_round_trip_witness :
    ((NewError.Status 400).Message "Test" []).ResponseBody
      = .obj [("status", .str (StatusText 400)), ("message", .str "Test")] :=
  C5_message_round_trip 400 "Test" (by decide)

/-- C6: for every status code `x` and cause `c`, the fresh builders
`NewError().Status(x)` and `WrapError(c).Status(x)` have `HTTPStatus` `x`, and
their message is the standard reason phrase of `x` when `x < 500` and stays
the generic "Unknown Server Error" when `x >= 500`. -/
theorem C6_Status_on_fresh_builder (x : Int) (c : Option GoError) :
    (NewError.Status x).HTTPStatus = x
    ∧ (NewError.Status x).message
        = (if x < 500 then StatusText x else "Unknown Server Error")
    ∧ ((WrapError c).Status x).HTTPStatus = x
    ∧ ((WrapError c).Status x).message
        = (if x < 500 then StatusText x else "Unknown Server Error") := by
  by_cases hx : x < 500 <;>
    simp [builtError.Status, builtError.HTTPStatus, WrapError, builtError.Wrap,
      NewError, ErrorMessageGeneric, hx]

/-- C7 as stated fails: after `NewError().Status(404).Status(400)` the most
recent `Status` call passed 400, which is below 500, and the message is still
"Not Found", the reason phrase of 404, not "Bad Request". -/
theorem C7_builder_invariant_counterexample :
    lastStatus [.status 404, .status 400] = some 400
    ∧ (applyCalls NewError [.status 404, .status 400]).message = "Not Found"
    ∧ (applyCalls NewError [.status 404, .status 400]).message ≠ StatusText 400 := by
  have hm : (applyCalls NewError [.status 404, .status 400]).message = "Not Found" := by
    rw [applyCalls_message_generic _ _ rfl]
    simp [firstBelow500, StatusText_404]
  refine ⟨by simp [lastStatus, Option.orElse], hm, ?_⟩
  rw [hm, StatusText_400]
  decide

/-- C7, amended: for every builder reached from `NewError()` or `WrapError(c)`
by a chain of `Status`, `Tag`, `Wrap` and `CustomField` calls, the status is
500 if `Status` was never called and the code of the most recent `Status` call
otherwise; and the message is the standard reason phrase of the first code
below 500 that a `Status` call passed (later `Status` calls do not replace
it), the generic message if no `Status` call passed a code below 500. -/
theorem C7_builder_invariant (c : Option GoError) (calls : List Call) :
    (applyCalls NewError calls).status = (lastStatus calls).getD 500
    ∧ (applyCalls (WrapError c) calls).status = (lastStatus calls).getD 500
    ∧ (applyCalls NewError calls).message
        = (match firstBelow500 calls with
            | some x => StatusText x
            | none => "Unknown Server Error")
    ∧ (applyCalls (WrapError c) calls).message
        = (match firstBelow500 calls with
            | some x => StatusText x
            | none => "Unknown Server Error") :=
  ⟨applyCalls_status calls NewError, applyCalls_status calls (WrapError c),
    applyCalls_message_generic calls NewError rfl,
    applyCalls_message_generic calls (WrapError c) rfl⟩

/-- C8 as stated fails: the body of `NewError().CustomField("code", "RULES")`
has no entry "code"; it is the body of `NewError()`. -/
theorem C8_custom_field_in_body_counterexample :
    ((NewError.CustomField "code" (.str "RULES")).ResponseBody).field "code" = none
    ∧ (NewError.CustomField "code" (.str "RULES")).ResponseBody
        = .obj [("status", .str "Internal Server Error"),
            ("message", .str "Unknown Server Error")] := by
  constructor
  · simp [builtError.ResponseBody, GoValue.field, mapGet, List.lookup]
  · simp [builtError.ResponseBody, builtError.CustomField, NewError,
      StatusInternalServerError, StatusText_500, ErrorMessageGeneric]

/-- C8, amended: for every builder `b`, key `k` and value `v`,
`b.CustomField(k, v)` stores the entry `k -> v` on the builder, where
`GetCustomFields()` returns it, and leaves the response body as it was: the
body holds "status" and "message" only, and no custom field. -/
theorem C8_custom_field_in_body (b : Builder) (k : String) (v : GoValue) :
    mapGet (b.CustomField k v).GetCustomFields k = some v
    ∧ (b.CustomField k v).ResponseBody = b.ResponseBody
    ∧ (b.CustomField k v).ResponseBody
        = .obj [("status", .str (StatusText b.status)), ("message", .str b.message)] :=
  ⟨mapGet_mapSet b.customData k v, rfl, rfl⟩

/-- C9 as stated fails: for the error `NewError().PlainText("oops")`
`SendError` adds the `Content-Type: application/json` header and a JSON object
on the writer, not the text "oops". -/
theorem C9_plain_text_response_counterexample :
    (NewError.PlainText "oops" []).plainText = true
    ∧ (SendError ⟨[], []⟩ ⟨"/"⟩ (.built (NewError.PlainText "oops" []))).rw
      = [.headerAdd "Content-Type" "application/json", .writeHeader 500,
          .encode (.obj [("status", .str "Internal Server Error"),
            ("message", .str "oops")])] := by
  have hm : Sprintf "oops" [] = "oops" := by decide
  constructor
  · rfl
  · have hs : (NewError.PlainText "oops" []).HTTPStatus = 500 := rfl
    rw [SendError_built, SendObject_rw _ _ _ _ (by rw [hs]; decide)]
    simp [builtError.HTTPStatus, builtError.ResponseBody, builtError.PlainText,
      builtError.Message, NewError, StatusInternalServerError, StatusText_500, hm]

/-- C9, amended: for every error built with `PlainText(format, args...)` the
plain-text flag is set and the message is the formatted text, and `SendError`
does with it exactly what it does with the same builder after
`Message(format, args...)`: it adds the header `Content-Type:
application/json` and, when the status of the builder is a code that the
writer accepts, from 100 to 999, the status and the JSON envelope with
"status" and "message"; for a status outside, `WriteHeader` panics after the
header, as it does after `Message`. No response is written as plain text. -/
theorem C9_plain_text_response (b : Builder) (format : String) (args : List GoValue)
    (w : World) (req : Request) :
    (b.PlainText format args).plainText = true
    ∧ (b.PlainText format args).message = Sprintf format args
    ∧ SendError w req (.built (b.PlainText format args))
        = SendError w req (.built (b.Message format args))
    ∧ SendError.panicValue (.built (b.PlainText format args))
        = SendError.panicValue (.built (b.Message format args))
    ∧ (SendError w req (.built (b.PlainText format args))).rw
        = w.rw ++ (.headerAdd "Content-Type" "application/json" ::
            (if 100 ≤ b.status ∧ b.status ≤ 999 then
              [.writeHeader b.status,
                .encode (.obj [("status", .str (StatusText b.status)),
                  ("message", .str (Sprintf format args))])]
            else [])) := by
  refine ⟨rfl, rfl, ?_, rfl, ?_⟩
  · rw [SendError_built, SendError_built]
    rfl
  · have hst : (b.PlainText format args).HTTPStatus = b.status := rfl
    rw [SendError_built]
    by_cases hs : 100 ≤ b.status ∧ b.status ≤ 999
    · rw [SendObject_rw _ _ _ _ (by rw [hst]; exact hs), if_pos hs]
      rfl
    · rw [SendObject_rw_invalid _ _ _ _ (by rw [hst]; omega), if_neg hs]

/-- C10: for every builder `b` and causes `c1`, `c2`, the builders
`b.Wrap(c1)` and `b.Wrap(c2)` have the same `HTTPStatus` and the same
`ResponseBody`, and `SendError` has the same effect for both, on the writer
and on the log. -/
theorem C10_wrap_noninterference (b : Builder) (c1 c2 : Option GoError) (w : World)
    (req : Request) :
    (b.Wrap c1).HTTPStatus = (b.Wrap c2).HTTPStatus
    ∧ (b.Wrap c1).ResponseBody = (b.Wrap c2).ResponseBody
    ∧ SendError w req (.built (b.Wrap c1)) = SendError w req (.built (b.Wrap c2)) := by
  refine ⟨rfl, rfl, ?_⟩
  rw [SendError_built, SendError_built]
  rfl

/-- C11: `Tag` is cumulative and keeps the order: for every builder `b` and
tag lists `a1`, `a2`, after `b.Tag(a1...).Tag(a2...)` the value of `Tags()` is
the tags of `b` followed by `a1` and then `a2`, which is what the single call
`b.Tag((a1 ++ a2)...)` gives; the tags of `b` stay at the front, none removed
or replaced. -/
theorem C11_Tag_cumulative (b : Builder) (a1 a2 : List String) :
    ((b.Tag a1).Tag a2).Tags = b.Tags ++ a1 ++ a2
    ∧ ((b.Tag a1).Tag a2).Tags = (b.Tag (a1 ++ a2)).Tags
    ∧ b.Tags <+: ((b.Tag a1).Tag a2).Tags := by
  refine ⟨rfl, ?_, ?_⟩
  · simp [builtError.Tag, builtError.Tags]
  · simp [builtError.Tag, builtError.Tags, List.append_assoc]

/-- C14, the code at the failing inputs: when the callback returns
`fmt.Errorf("Unhandled Error")`, and when it panics, the handler of
`HandlerWrap` writes status 500 with a body that has the keys "status" and
"message"; the body has no "code" entry and no "error" entry, which the tests
`TestErrorWrapper` and `TestPanicWrapper` read as "UNKNOWN" and "Internal
Server Error". -/
theorem C14_unknown_error_body_keys :
    (HandlerWrap (fun _ => .returned .null (some (Errorf "Unhandled Error" []))) ""
        ⟨[], []⟩ ⟨"/error"⟩).rw
      = [.headerAdd "Content-Type" "application/json", .writeHeader 500,
          .encode (.obj [("status", .str "Internal Server Error"),
            ("message", .str "Unknown Error")])]
    ∧ (HandlerWrap (fun _ => .panicked (.str "Panic As Requested")) ""
        ⟨[], []⟩ ⟨"/panic"⟩).rw
      = [.headerAdd "Content-Type" "application/json", .writeHeader 500,
          .encode (.obj [("status", .str "Internal Server Error"),
            ("message", .str "Unknown Error")])]
    ∧ (GoValue.obj [("status", .str "Internal Server Error"),
          ("message", .str "Unknown Error")]).field "code" = none
    ∧ (GoValue.obj [("status", .str "Internal Server Error"),
          ("message", .str "Unknown Error")]).field "error" = none := by
  refine ⟨?_, ?_, ?_, ?_⟩
  · simp only [HandlerWrap, handlerBody,
      SendError_panicValue_unknown (Errorf "Unhandled Error" []) rfl, handlerDeferred]
    rw [SendError_unknown_rw _ _ (Errorf "Unhandled Error" []) rfl]
    simp
  · simp only [HandlerWrap, handlerBody, handlerDeferred]
    rw [SendError_unknown_rw _ _ (Errorf "Panic" []) rfl]
    simp [World.Println]
  · simp [GoValue.field, mapGet, List.lookup]
  · simp [GoValue.field, mapGet, List.lookup]

/-- C17 as stated fails: `NewError().Message("Unknown Server Error")` sets the
message explicitly, to the text of the generic default, and `Status(404)`
replaces it with "Not Found". -/
theorem C17_Status_keeps_message_counterexample :
    Sprintf "Unknown Server Error" [] = "Unknown Server Error"
    ∧ ((NewError.Message "Unknown Server Error" []).Status 404).message = "Not Found"
    ∧ ((NewError.Message "Unknown Server Error" []).Status 404).message
        ≠ Sprintf "Unknown Server Error" [] := by
  have hs : Sprintf "Unknown Server Error" [] = "Unknown Server Error" := by decide
  have hm : ((NewError.Message "Unknown Server Error" []).Status 404).message
      = "Not Found" := by
    simp [builtError.Status, builtError.Message, hs, ErrorMessageGeneric, StatusText_404]
  refine ⟨hs, hm, ?_⟩
  rw [hm, hs]
  decide

/-- C17, amended: for every format and arguments producing the text `s` and
every status code `x`, `NewError().Message(format, args...).Status(x)` has
`HTTPStatus` `x`, and its message is `s`, except that a text `s` equal to the
generic default "Unknown Server Error" is replaced by the standard reason
phrase of `x` when `x < 500`: `Status` tells a message that was set from one
that was not by comparing it with the default. -/
theorem C17_Status_keeps_message (format : String) (args : List GoValue) (x : Int) :
    ((NewError.Message format args).Status x).HTTPStatus = x
    ∧ ((NewError.Message format args).Status x).message
        = (if Sprintf format args = "Unknown Server Error" ∧ x < 500
            then StatusText x else Sprintf format args) := by
  refine ⟨Status_status _ x, ?_⟩
  simp only [builtError.Status, builtError.Message, ErrorMessageGeneric]
  split <;> rfl

/-- C18: `JSONBodyError` is total: for every error value `err`, nil included,
the builder it returns is an `HTTPError`, wraps `err` as its cause, and has
status and message (400, "Invalid JSON") for a `*json.SyntaxError`, (400,
"Request did not match schema") for a `*json.UnmarshalFieldError`,
`*json.UnmarshalTypeError` or `*time.ParseError`, and (500, "Unknown Server
Error") otherwise; its body is the fixed body of that branch, in which the
text of `err` does not occur. -/
theorem C18_JSONBodyError_classification (err : Option GoError) :
    (JSONBodyError err).WrappedError = err
    ∧ ((JSONBodyError err).HTTPStatus, (JSONBodyError err).message)
        = (match dynamicKind err with
            | .jsonSyntax => (400, "Invalid JSON")
            | .jsonUnmarshalField => (400, "Request did not match schema")
            | .jsonUnmarshalType => (400, "Request did not match schema")
            | .timeParse => (400, "Request did not match schema")
            | .other => (500, "Unknown Server Error"))
    ∧ (GoError.built (JSONBodyError err)).asHTTPError
        = some ⟨(JSONBodyError err).HTTPStatus, (JSONBodyError err).ResponseBody⟩
    ∧ (JSONBodyError err).ResponseBody
        = (match dynamicKind err with
            | .jsonSyntax =>
              .obj [("status", .str "Bad Request"), ("message", .str "Invalid JSON")]
            | .jsonUnmarshalField =>
              .obj [("status", .str "Bad Request"),
                ("message", .str "Request did not match schema")]
            | .jsonUnmarshalType =>
              .obj [("status", .str "Bad Request"),
                ("message", .str "Request did not match schema")]
            | .timeParse =>
              .obj [("status", .str "Bad Request"),
                ("message", .str "Request did not match schema")]
            | .other =>
              .obj [("status", .str "Internal Server Error"),
                ("message", .str "Unknown Server Error")]) := by
  have h1 : Sprintf ErrorMessageSchemaViolation [] = "Request did not match schema" := by
    decide
  have h2 : Sprintf ErrorMessageInvalidJSON [] = "Invalid JSON" := by decide
  have key : ∀ (e : Option GoError) (m : String),
      (((WrapError e).Status StatusBadRequest).Message m []).err = e
      ∧ (((WrapError e).Status StatusBadRequest).Message m []).status = 400
      ∧ (((WrapError e).Status StatusBadRequest).Message m []).message = Sprintf m [] := by
    intro e m
    simp [builtError.Message, builtError.Status, WrapError, builtError.Wrap, NewError,
      ErrorMessageGeneric, StatusBadRequest]
  refine ⟨?_, ?_, rfl, ?_⟩
  · rcases err with _ | (⟨kind, text⟩ | _ | _)
    · rfl
    · cases kind <;> rfl
    · rfl
    · rfl
  · rcases err with _ | (⟨kind, text⟩ | _ | _)
    · rfl
    · cases kind
      · rfl
      all_goals
        simp only [JSONBodyError, dynamicKind, builtError.HTTPStatus, (key _ _).2.1,
          (key _ _).2.2, h1, h2]
    · rfl
    · rfl
  · rcases err with _ | (⟨kind, text⟩ | _ | _)
    · simp [JSONBodyError, dynamicKind, builtError.ResponseBody, WrapError,
        builtError.Wrap, NewError, StatusInternalServerError, StatusText_500,
        ErrorMessageGeneric]
    · cases kind
      · simp [JSONBodyError, dynamicKind, builtError.ResponseBody, WrapError,
          builtError.Wrap, NewError, StatusInternalServerError, StatusText_500,
          ErrorMessageGeneric]
      all_goals
        simp only [JSONBodyError, dynamicKind, builtError.ResponseBody, (key _ _).2.1,
          (key _ _).2.2, h1, h2, StatusText_400]
    · simp [JSONBodyError, dynamicKind, builtError.ResponseBody, WrapError,
        builtError.Wrap, NewError, StatusInternalServerError, StatusText_500,
        ErrorMessageGeneric]
    · simp [JSONBodyError, dynamicKind, builtError.ResponseBody, WrapError,
        builtError.Wrap, NewError, StatusInternalServerError, StatusText_500,
        ErrorMessageGeneric]

/-- The digits of a number below ten. -/
theorem decimal_lt (u : Nat) (h : u < 10) : decimal u = [digitChar u] := by
  rw [decimal]
  simp [h]

/-- The digits of a number from ten on. -/
theorem decimal_ge (u : Nat) (h : 10 ≤ u) :
    decimal u = decimal (u / 10) ++ [digitChar (u % 10)] := by
  rw [decimal]
  simp [Nat.not_lt.mpr h]

/-- Two digits, zero-padded. -/
theorem pad2 (u : Nat) (h : u < 100) :
    List.replicate (2 - (decimal u).length) '0' ++ decimal u
      = [digitChar (u / 10), digitChar (u % 10)] := by
  by_cases h1 : u < 10
  · have e1 : u / 10 = 0 := by omega
    have e2 : u % 10 = u := by omega
    rw [decimal_lt u h1, e1, e2]
    rfl
  · rw [decimal_ge u (by omega), decimal_lt (u / 10) (by omega)]
    rfl

/-- Four digits, zero-padded. -/
theorem pad4 (u : Nat) (h : u < 10000) :
    List.replicate (4 - (decimal u).length) '0' ++ decimal u
      = [digitChar (u / 1000), digitChar (u / 100 % 10), digitChar (u / 10 % 10),
          digitChar (u % 10)] := by
  by_cases h1 : u < 10
  · have e1 : u / 1000 = 0 := by omega
    have e2 : u / 100 % 10 = 0 := by omega
    have e3 : u / 10 % 10 = 0 := by omega
    have e4 : u % 10 = u := by omega
    rw [decimal_lt u h1, e1, e2, e3, e4]
    rfl
  · by_cases h2 : u < 100
    · have e1 : u / 1000 = 0 := by omega
      have e2 : u / 100 % 10 = 0 := by omega
      have e3 : u / 10 % 10 = u / 10 := by omega
      rw [decimal_ge u (by omega), decimal_lt (u / 10) (by omega), e1, e2, e3]
      rfl
    · by_cases h3 : u < 1000
      · have e1 : u / 1000 = 0 := by omega
        have e2 : u / 100 % 10 = u / 10 / 10 := by omega
        have e3 : u / 10 % 10 = u / 10 % 10 := rfl
        rw [decimal_ge u (by omega), decimal_ge (u / 10) (by omega),
          decimal_lt (u / 10 / 10) (by omega), e1, e2]
        rfl
      · have e1 : u / 1000 = u / 10 / 10 / 10 := by omega
        have e2 : u / 100 % 10 = u / 10 / 10 % 10 := by omega
        rw [decimal_ge u (by omega), decimal_ge (u / 10) (by omega),
          decimal_ge (u / 10 / 10) (by omega),
          decimal_lt (u / 10 / 10 / 10) (by omega), e1, e2]
        rfl

/-- The text of `%0Nd` for a number that is not negative. -/
theorem fmtInteger_nonneg (width : Nat) (n : Int) (h : 0 ≤ n) :
    fmtInteger width n
      = List.replicate (width - (decimal n.toNat).length) '0' ++ decimal n.toNat := by
  have e : n.natAbs = n.toNat := by omega
  simp [fmtInteger, Int.not_lt.mpr h, e]

/-- The regular expression of `ParseDate` has no capture group, so the slice
of `FindStringSubmatch` never has four elements and `ParseDate` fails on every
string. -/
theorem ParseDate_fails (str : String) : ParseDate str = (⟨0, 0, 0⟩, false) := by
  have h : (FindStringSubmatch str).length ≠ 4 := by
    unfold FindStringSubmatch
    split <;> simp
  simp [ParseDate, h]

/-- The method `Date.UnmarshalJSON` returns an error and leaves the receiver
as it was, whatever `json.Unmarshal` finds in the data. -/
theorem UnmarshalJSON_fails (unmarshal : GoString → Except GoError GoString)
    (date : Date) (data : GoString) :
    Date.UnmarshalJSON unmarshal date data
      = (date, some (match unmarshal data with
          | .error err => err
          | .ok str => Errorf "invalid date format %s" [.str str])) := by
  unfold Date.UnmarshalJSON
  cases unmarshal data with
  | error err => rfl
  | ok str => simp [ParseDate_fails]

/-- The characters of `Date.String` for a date whose year has at most four
digits and whose month and day have at most two. -/
theorem Date_String_digits (d : Date) (hy : 0 ≤ d.Year ∧ d.Year ≤ 9999)
    (hm : 0 ≤ d.Month ∧ d.Month ≤ 99) (hd : 0 ≤ d.Day ∧ d.Day ≤ 99) :
    d.String.data
      = [digitChar (d.Year.toNat / 1000), digitChar (d.Year.toNat / 100 % 10),
          digitChar (d.Year.toNat / 10 % 10), digitChar (d.Year.toNat % 10), '-',
          digitChar (d.Month.toNat / 10), digitChar (d.Month.toNat % 10), '-',
          digitChar (d.Day.toNat / 10), digitChar (d.Day.toNat % 10)] := by
  simp only [Date.String]
  rw [fmtInteger_nonneg 4 d.Year hy.1, fmtInteger_nonneg 2 d.Month hm.1,
    fmtInteger_nonneg 2 d.Day hd.1, pad4 _ (by omega), pad2 d.Month.toNat (by omega),
    pad2 d.Day.toNat (by omega)]
  rfl

/-- A decimal digit is written as it is by `encoding/json`. -/
theorem jsonEscape_digit (k : Nat) (h : k < 10) :
    jsonEscape (digitChar k) = [digitChar k] := by
  interval_cases k <;> decide

/-- The text of the test date. -/
theorem Date_String_2016_12_30 : Date.String ⟨2016, 12, 30⟩ = "2016-12-30" :=
  String.ext ((Date_String_digits ⟨2016, 12, 30⟩ (by decide) (by decide) (by decide)).trans
    (by decide))

/-- C12, the code at the failing input: the date of `TestDate`,
`Date{2016, 12, 30}`, is marshalled as `"2016-12-30"`, and reading it back
fails: `ParseDate("2016-12-30")` returns `(Date{}, false)`, because the
expression of `ParseDate` has no capture group and the check for four
submatches never passes, and `UnmarshalJSON` returns the error "invalid date
format 2016-12-30" with the receiver left empty. -/
theorem C12_Date_round_trip_fails :
    (Date.MarshalJSON ⟨2016, 12, 30⟩).1 = "\"2016-12-30\""
    ∧ ParseDate (Date.String ⟨2016, 12, 30⟩) = (⟨0, 0, 0⟩, false)
    ∧ ParseDate (Date.String ⟨2016, 12, 30⟩) ≠ (⟨2016, 12, 30⟩, true)
    ∧ Date.UnmarshalJSON jsonUnmarshalString ⟨0, 0, 0⟩ "\"2016-12-30\""
        = (⟨0, 0, 0⟩, some (Errorf "invalid date format %s" [.str "2016-12-30"]))
    ∧ (Errorf "invalid date format %s" [.str "2016-12-30"]).Error
        = "invalid date format 2016-12-30" := by
  refine ⟨?_, ParseDate_fails _, ?_, ?_, ?_⟩
  · simp only [Date.MarshalJSON, Date_String_2016_12_30]
    decide
  · rw [ParseDate_fails]
    decide
  · rw [UnmarshalJSON_fails]
    have h : jsonUnmarshalString "\"2016-12-30\"" = .ok "2016-12-30" := by rfl
    rw [h]
  · decide

/-- C13: for every `Date` with `0 <= Year <= 9999`, `0 <= Month <= 99` and
`0 <= Day <= 99`, `String()` is the ten characters made of the four decimal
digits of the year, `-`, the two digits of the month, `-` and the two digits
of the day, leading zeros included, and `MarshalJSON` returns that text
between double quotes, without an error. -/
theorem C13_Date_encoding (d : Date) (hy : 0 ≤ d.Year ∧ d.Year ≤ 9999)
    (hm : 0 ≤ d.Month ∧ d.Month ≤ 99) (hd : 0 ≤ d.Day ∧ d.Day ≤ 99) :
    d.String.data
        = [digitChar (d.Year.toNat / 1000), digitChar (d.Year.toNat / 100 % 10),
            digitChar (d.Year.toNat / 10 % 10), digitChar (d.Year.toNat % 10), '-',
            digitChar (d.Month.toNat / 10), digitChar (d.Month.toNat % 10), '-',
            digitChar (d.Day.toNat / 10), digitChar (d.Day.toNat % 10)]
    ∧ d.String.length = 10
    ∧ d.MarshalJSON = (⟨'"' :: (d.String.data ++ ['"'])⟩, none) := by
  have hs := Date_String_digits d hy hm hd
  refine ⟨hs, ?_, ?_⟩
  · simp [String.length, hs]
  · have hdash : jsonEscape '-' = ['-'] := by decide
    simp only [Date.MarshalJSON, jsonMarshalString, hs, List.flatMap_cons,
      List.flatMap_nil, hdash,
      jsonEscape_digit (d.Year.toNat / 1000) (by omega),
      jsonEscape_digit (d.Year.toNat / 100 % 10) (by omega),
      jsonEscape_digit (d.Year.toNat / 10 % 10) (by omega),
      jsonEscape_digit (d.Year.toNat % 10) (by omega),
      jsonEscape_digit (d.Month.toNat / 10) (by omega),
      jsonEscape_digit (d.Month.toNat % 10) (by omega),
      jsonEscape_digit (d.Day.toNat / 10) (by omega),
      jsonEscape_digit (d.Day.toNat % 10) (by omega)]
    simp

/-- Witness of C13: `Date{2016, 12, 30}` gives `"2016-12-30"`. -/
theorem C13_Date_encoding_witness :
    Date.String ⟨2016, 12, 30⟩ = "2016-12-30"
    ∧ Date.MarshalJSON ⟨2016, 12, 30⟩ = ("\"2016-12-30\"", none) := by
  have h := C13_Date_encoding ⟨2016, 12, 30⟩ (by decide) (by decide) (by decide)
  have hs : Date.String ⟨2016, 12, 30⟩ = "2016-12-30" := String.ext (h.1.trans (by decide))
  refine ⟨hs, ?_⟩
  rw [h.2.2, hs]
  rfl

/-- C19: for every string `s` that the pattern of four digits, `-`, two
digits, `-`, two digits does not match, `ParseDate(s)` returns `(Date{},
false)`; and `Date.UnmarshalJSON` returns an error and leaves the receiver as
it was, both when the data decode to the string `s` (the error is "invalid
date format s") and when decoding the data into a string fails (the error of
`json.Unmarshal`). -/
theorem C19_Date_rejects_malformed (s : String) (hs : reDatePartsRFC3339 s = false)
    (unmarshal : GoString → Except GoError GoString) (date : Date) (data : GoString) :
    ParseDate s = (⟨0, 0, 0⟩, false)
    ∧ (unmarshal data = .ok s →
        Date.UnmarshalJSON unmarshal date data
          = (date, some (Errorf "invalid date format %s" [.str s])))
    ∧ (∀ err, unmarshal data = .error err →
        Date.UnmarshalJSON unmarshal date data = (date, some err)) := by
  refine ⟨?_, ?_, ?_⟩
  · simp [ParseDate, FindStringSubmatch, hs]
  · intro h
    simp [Date.UnmarshalJSON, h, ParseDate, FindStringSubmatch, hs]
  · intro err h
    simp [Date.UnmarshalJSON, h]

/-- Witness of C19: the text "2016-12-3", with a one-digit day, read into the
date 1 January 2000. -/
theorem C19_Date_rejects_malformed_witness :
    reDatePartsRFC3339 "2016-12-3" = false
    ∧ ParseDate "2016-12-3" = (⟨0, 0, 0⟩, false)
    ∧ Date.UnmarshalJSON jsonUnmarshalString ⟨2000, 1, 1⟩ "\"2016-12-3\""
        = (⟨2000, 1, 1⟩, some (Errorf "invalid date format %s" [.str "2016-12-3"])) :=
  have h := C19_Date_rejects_malformed "2016-12-3" (by decide) jsonUnmarshalString
    ⟨2000, 1, 1⟩ "\"2016-12-3\""
  ⟨by decide, h.1, h.2.1 (by rfl)⟩

/-- Reading a key of a map after assigning another key. -/
theorem mapGet_mapSet_ne (m : List (String × GoValue)) (key other : String)
    (value : GoValue) (h : key ≠ other) :
    mapGet (mapSet m other value) key = mapGet m key := by
  induction m with
  | nil =>
    have hb : (key == other) = false := by simpa using h
    simp [mapSet, mapGet, List.lookup, hb]
  | cons p rest ih =>
    obtain ⟨k, v⟩ := p
    by_cases hk : k = other
    · subst hk
      have hb : (key == k) = false := by simpa using h
      simp [mapSet, mapGet, List.lookup, hb]
    · simp only [mapSet, hk, if_false, mapGet, List.lookup]
      cases key == k
      · exact ih
      · rfl

/-- C20, the code at the failing input: around a handler that calls
`WriteHeader(404)`, the recorder records 404 and forwards `WriteHeader(404)`
to the underlying writer, and the entry that `LoggingMiddleware` logs has the
"status" field 200; the field is 200 for every handler, because the entry is
built from the recorder before the handler runs. -/
theorem C20_logged_status_is_200 (rootEntry : Entry) (url : String) (duration : GoValue)
    (route : Option String) (rw : List RwCall) (req : Request) :
    (LoggingMiddleware rootEntry (fun _ => [.writeHeader 404]) url duration route rw
        req).rwRecorder.status = 404
    ∧ (LoggingMiddleware rootEntry (fun _ => [.writeHeader 404]) url duration route rw
        req).rwRecorder.ResponseWriter = rw ++ [.writeHeader 404]
    ∧ mapGet (LoggingMiddleware rootEntry (fun _ => [.writeHeader 404]) url duration route
        rw req).entry.Data "status" = some (.int 200)
    ∧ ∀ next : Request → List RwCall,
        mapGet (LoggingMiddleware rootEntry next url duration route rw req).entry.Data
          "status" = some (.int 200) := by
  have key : ∀ next : Request → List RwCall,
      mapGet (LoggingMiddleware rootEntry next url duration route rw req).entry.Data
        "status" = some (.int 200) := by
    intro next
    cases route with
    | none =>
      simp only [LoggingMiddleware, Entry.WithFields, List.foldl]
      rw [mapGet_mapSet_ne _ _ _ _ (by decide), mapGet_mapSet]
    | some name =>
      simp only [LoggingMiddleware, Entry.WithFields, List.foldl]
      rw [mapGet_mapSet_ne _ _ _ _ (by decide), mapGet_mapSet_ne _ _ _ _ (by decide),
        mapGet_mapSet]
  exact ⟨rfl, rfl, key _, key⟩

/-- The events of a rollback. -/
theorem txRollback_events (db : SqlDB) (w : TxWorld) :
    (txRollback db w).events = w.events ++ [.rollback db.rollbackErr] := by
  unfold txRollback
  cases db.rollbackErr <;> rfl

/-- A rollback writes nothing on the response writer. -/
theorem txRollback_rw (db : SqlDB) (w : TxWorld) :
    (txRollback db w).world.rw = w.world.rw := by
  unfold txRollback
  cases db.rollbackErr <;> rfl

/-- The events of a drain: one publish event for each entry whose name is
registered, in the order of the entries. -/
theorem drain_events (publishers : List (String × MessagePublisher))
    (entries : List (String × GoValue)) (w : TxWorld) :
    (drain publishers w entries).events
      = w.events ++ entries.filterMap fun nm =>
          (publishers.lookup nm.1).map fun p => TxEvent.publish nm.1 nm.2 (p.Publish nm.2) := by
  induction entries generalizing w with
  | nil => simp [drain]
  | cons nm rest ih =>
    obtain ⟨name, message⟩ := nm
    cases hl : publishers.lookup name with
    | none => simp [drain, hl, ih]
    | some publisher =>
      cases hp : publisher.Publish message <;> simp [drain, hl, hp, ih]

/-- A drain writes nothing on the response writer. -/
theorem drain_rw (publishers : List (String × MessagePublisher))
    (entries : List (String × GoValue)) (w : TxWorld) :
    (drain publishers w entries).world.rw = w.world.rw := by
  induction entries generalizing w with
  | nil => simp [drain]
  | cons nm rest ih =>
    obtain ⟨name, message⟩ := nm
    cases hl : publishers.lookup name with
    | none => simp [drain, hl, ih, World.Errorf]
    | some publisher =>
      cases hp : publisher.Publish message <;> simp [drain, hl, hp, ih, World.Errorf]

/-- The messages of the publish events of a drain: the entries whose name is
registered. -/
theorem delivered_drain (publishers : List (String × MessagePublisher))
    (entries : List (String × GoValue)) :
    delivered (entries.filterMap fun nm =>
        (publishers.lookup nm.1).map fun p => TxEvent.publish nm.1 nm.2 (p.Publish nm.2))
      = entries.filter fun nm => (publishers.lookup nm.1).isSome := by
  induction entries with
  | nil => rfl
  | cons nm rest ih =>
    obtain ⟨name, message⟩ := nm
    unfold delivered at ih ⊢
    cases hl : publishers.lookup name <;> simp [List.filterMap_cons, hl, ih]

/-- The events of a drain hold no commit and no rollback. -/
theorem drain_no_tx (publishers : List (String × MessagePublisher))
    (entries : List (String × GoValue)) :
    commitCalls (entries.filterMap fun nm =>
        (publishers.lookup nm.1).map fun p => TxEvent.publish nm.1 nm.2 (p.Publish nm.2)) = 0
    ∧ rollbackCalls (entries.filterMap fun nm =>
        (publishers.lookup nm.1).map fun p => TxEvent.publish nm.1 nm.2 (p.Publish nm.2)) = 0
    ∧ committed (entries.filterMap fun nm =>
        (publishers.lookup nm.1).map fun p => TxEvent.publish nm.1 nm.2 (p.Publish nm.2))
        = false := by
  induction entries with
  | nil => exact ⟨rfl, rfl, rfl⟩
  | cons nm rest ih =>
    obtain ⟨name, message⟩ := nm
    unfold commitCalls rollbackCalls committed at ih ⊢
    cases hl : publishers.lookup name <;> simp [List.filterMap_cons, hl, ih]

/-- The response of `SendError` depends on the writer only. -/
theorem SendError_rw_congr (w1 w2 : World) (req : Request) (e : GoError)
    (h : w1.rw = w2.rw) : (SendError w1 req e).rw = (SendError w2 req e).rw := by
  cases he : e.asHTTPError with
  | none => rw [SendError_unknown_rw w1 req e he, SendError_unknown_rw w2 req e he, h]
  | some http =>
    rw [SendError_http w1 req e http he, SendError_http w2 req e http he]
    exact SendObject_rw_congr _ _ _ _ _ h

/-- The transactional handler when the transaction cannot be begun. -/
theorem TxHandler_begin_failed (wrapper : TxWrapper) (fn : Request → TxRun)
    (stack : String) (w : TxWorld) (req : Request) (e : String)
    (hb : wrapper.DB.beginErr = some e) :
    (wrapper.TxHandler fn stack w req).events = w.events ++ [.begin (some e)] := by
  simp [TxWrapper.TxHandler, hb]

/-- The transactional handler when the business function panics. -/
theorem TxHandler_panicked (wrapper : TxWrapper) (fn : Request → TxRun)
    (stack : String) (w : TxWorld) (req : Request) (r : GoValue)
    (hb : wrapper.DB.beginErr = none) (ho : (fn req).outcome = .panicked r) :
    (wrapper.TxHandler fn stack w req).events
        = w.events ++ [.begin none, .rollback wrapper.DB.rollbackErr]
    ∧ (wrapper.TxHandler fn stack w req).world.rw
        = (SendError w.world req (Errorf "Panic" [])).rw := by
  constructor
  · simp [TxWrapper.TxHandler, hb, ho, txRollback_events]
  · simp only [TxWrapper.TxHandler, hb, ho]
    exact SendError_rw_congr _ _ _ _ (by simp [World.Println, txRollback_rw])

/-- The transactional handler when the business function returns an error. -/
theorem TxHandler_failed (wrapper : TxWrapper) (fn : Request → TxRun)
    (stack : String) (w : TxWorld) (req : Request) (obj : GoValue) (err : GoError)
    (hb : wrapper.DB.beginErr = none) (ho : (fn req).outcome = .returned obj (some err)) :
    (wrapper.TxHandler fn stack w req).events
        = w.events ++ [.begin none, .rollback wrapper.DB.rollbackErr]
    ∧ (wrapper.TxHandler fn stack w req).world.rw = (SendError w.world req err).rw := by
  constructor
  · simp [TxWrapper.TxHandler, hb, ho, txRollback_events]
  · simp only [TxWrapper.TxHandler, hb, ho]
    exact SendError_rw_congr _ _ _ _ (by simp [txRollback_rw])

/-- The transactional handler when the commit fails. -/
theorem TxHandler_commit_failed (wrapper : TxWrapper) (fn : Request → TxRun)
    (stack : String) (w : TxWorld) (req : Request) (obj : GoValue) (e : String)
    (hb : wrapper.DB.beginErr = none) (ho : (fn req).outcome = .returned obj none)
    (hc : wrapper.DB.commitErr = some e) :
    (wrapper.TxHandler fn stack w req).events
        = w.events ++ [.begin none, .commit (some e), .rollback wrapper.DB.rollbackErr]
    ∧ (wrapper.TxHandler fn stack w req).world.rw
        = (SendError w.world req (.plain .other e)).rw := by
  constructor
  · simp [TxWrapper.TxHandler, hb, ho, hc, txRollback_events]
  · simp only [TxWrapper.TxHandler, hb, ho, hc]
    exact SendError_rw_congr _ _ _ _ (by simp [txRollback_rw])

/-- The transactional handler when the commit succeeds. -/
theorem TxHandler_committed (wrapper : TxWrapper) (fn : Request → TxRun)
    (stack : String) (w : TxWorld) (req : Request) (obj : GoValue)
    (hb : wrapper.DB.beginErr = none) (ho : (fn req).outcome = .returned obj none)
    (hc : wrapper.DB.commitErr = none) :
    (wrapper.TxHandler fn stack w req).events
        = w.events ++ ([.begin none, .commit none] ++ (fn req).deferred.filterMap fun nm =>
            (wrapper.Publishers.lookup nm.1).map fun p =>
              TxEvent.publish nm.1 nm.2 (p.Publish nm.2))
    ∧ (wrapper.TxHandler fn stack w req).world.rw = (SendObject w.world req 200 obj).rw := by
  constructor
  · simp [TxWrapper.TxHandler, hb, ho, hc, drain_events]
  · simp only [TxWrapper.TxHandler, hb, ho, hc]
    exact SendObject_rw_congr _ _ _ _ _ (drain_rw _ _ _)

/-- C15 as stated fails on a commit that fails: the business function returns
`("Hello", nil)`, the commit is called and returns an error, and then the
rollback is called as well: one commit call and one rollback call, no commit
that succeeded, and the response is 500, not 200. -/
theorem C15_commit_or_rollback_counterexample :
    commitCalls (TxWrapper.TxHandler ⟨⟨none, some "commit failed", none⟩, []⟩
        (fun _ => ⟨[], .returned (.str "Hello") none⟩) "" ⟨⟨[], []⟩, []⟩ ⟨"/hello"⟩).events = 1
    ∧ rollbackCalls (TxWrapper.TxHandler ⟨⟨none, some "commit failed", none⟩, []⟩
        (fun _ => ⟨[], .returned (.str "Hello") none⟩) "" ⟨⟨[], []⟩, []⟩ ⟨"/hello"⟩).events = 1
    ∧ committed (TxWrapper.TxHandler ⟨⟨none, some "commit failed", none⟩, []⟩
        (fun _ => ⟨[], .returned (.str "Hello") none⟩) "" ⟨⟨[], []⟩, []⟩ ⟨"/hello"⟩).events
        = false
    ∧ statusCodes (TxWrapper.TxHandler ⟨⟨none, some "commit failed", none⟩, []⟩
        (fun _ => ⟨[], .returned (.str "Hello") none⟩) "" ⟨⟨[], []⟩, []⟩ ⟨"/hello"⟩).world.rw
        = [500] := by
  have h := TxHandler_commit_failed ⟨⟨none, some "commit failed", none⟩, []⟩
    (fun _ => ⟨[], .returned (.str "Hello") none⟩) "" ⟨⟨[], []⟩, []⟩ ⟨"/hello"⟩
    (.str "Hello") "commit failed" rfl rfl rfl
  rw [h.1, h.2, SendError_unknown_rw _ _ (.plain .other "commit failed") rfl]
  simp [commitCalls, rollbackCalls, committed, statusCodes]

/-- C15, amended: for every request served by `TxWrapper.TxHandler` whose
transaction was begun, the commit is called once if the business function
returned a nil error without panicking and is not called otherwise; the
rollback is called once if the function returned an error or panicked, and
also if the commit failed, and is not called after a commit that succeeded; so
exactly one of a commit that succeeded and a rollback happens. The response is
200 with the result after a commit that succeeded, the response of
`SendError` for the error that the function returned, and the generic 500
after a panic and after a commit that failed. -/
theorem C15_commit_or_rollback (wrapper : TxWrapper) (fn : Request → TxRun)
    (stack : String) (w : World) (req : Request) (hb : wrapper.DB.beginErr = none) :
    commitCalls (wrapper.TxHandler fn stack ⟨w, []⟩ req).events
        = (if (fn req).outcome.isSuccess then 1 else 0)
    ∧ rollbackCalls (wrapper.TxHandler fn stack ⟨w, []⟩ req).events
        = (if (fn req).outcome.isSuccess && wrapper.DB.commitErr.isNone then 0 else 1)
    ∧ committed (wrapper.TxHandler fn stack ⟨w, []⟩ req).events
        = ((fn req).outcome.isSuccess && wrapper.DB.commitErr.isNone)
    ∧ (if committed (wrapper.TxHandler fn stack ⟨w, []⟩ req).events then 1 else 0)
        + rollbackCalls (wrapper.TxHandler fn stack ⟨w, []⟩ req).events = 1
    ∧ (wrapper.TxHandler fn stack ⟨w, []⟩ req).world.rw
        = (match (fn req).outcome, wrapper.DB.commitErr with
            | .returned obj none, none => (SendObject w req 200 obj).rw
            | .returned _ none, some e => (SendError w req (.plain .other e)).rw
            | .returned _ (some err), _ => (SendError w req err).rw
            | .panicked _, _ => (SendError w req (Errorf "Panic" [])).rw) := by
  cases ho : (fn req).outcome with
  | panicked r =>
    obtain ⟨h1, h2⟩ := TxHandler_panicked wrapper fn stack ⟨w, []⟩ req r hb ho
    rw [h1, h2]
    simp [commitCalls, rollbackCalls, committed, Outcome.isSuccess]
  | returned obj err =>
    cases err with
    | some err =>
      obtain ⟨h1, h2⟩ := TxHandler_failed wrapper fn stack ⟨w, []⟩ req obj err hb ho
      rw [h1, h2]
      simp [commitCalls, rollbackCalls, committed, Outcome.isSuccess]
    | none =>
      cases hc : wrapper.DB.commitErr with
      | some e =>
        obtain ⟨h1, h2⟩ :=
          TxHandler_commit_failed wrapper fn stack ⟨w, []⟩ req obj e hb ho hc
        rw [h1, h2]
        simp [commitCalls, rollbackCalls, committed, Outcome.isSuccess]
      | none =>
        obtain ⟨h1, h2⟩ := TxHandler_committed wrapper fn stack ⟨w, []⟩ req obj hb ho hc
        obtain ⟨d1, d2, d3⟩ := drain_no_tx wrapper.Publishers (fn req).deferred
        unfold commitCalls at d1
        unfold rollbackCalls at d2
        unfold committed at d3
        rw [h1, h2]
        simp [commitCalls, rollbackCalls, committed, Outcome.isSuccess, List.countP_cons,
          d1, d2, d3]

/-- Witness of C15: the three requests of `TestDBWrap`: a result commits and
is answered 200, an error and a panic roll back. -/
theorem C15_commit_or_rollback_witness :
    commitCalls (TxWrapper.TxHandler ⟨⟨none, none, none⟩, []⟩
        (fun _ => ⟨[], .returned (.str "Hello") none⟩) "" ⟨⟨[], []⟩, []⟩ ⟨"/hello"⟩).events = 1
    ∧ rollbackCalls (TxWrapper.TxHandler ⟨⟨none, none, none⟩, []⟩
        (fun _ => ⟨[], .returned (.str "Hello") none⟩) "" ⟨⟨[], []⟩, []⟩ ⟨"/hello"⟩).events = 0
    ∧ rollbackCalls (TxWrapper.TxHandler ⟨⟨none, none, none⟩, []⟩
        (fun _ => ⟨[], .panicked (.str "Panic As Requested")⟩) "" ⟨⟨[], []⟩, []⟩
        ⟨"/panic"⟩).events = 1 :=
  ⟨(C15_commit_or_rollback ⟨⟨none, none, none⟩, []⟩
      (fun _ => ⟨[], .returned (.str "Hello") none⟩) "" ⟨[], []⟩ ⟨"/hello"⟩ rfl).1,
    (C15_commit_or_rollback ⟨⟨none, none, none⟩, []⟩
      (fun _ => ⟨[], .returned (.str "Hello") none⟩) "" ⟨[], []⟩ ⟨"/hello"⟩ rfl).2.1,
    (C15_commit_or_rollback ⟨⟨none, none, none⟩, []⟩
      (fun _ => ⟨[], .panicked (.str "Panic As Requested")⟩) "" ⟨[], []⟩ ⟨"/panic"⟩
      rfl).2.1⟩

/-- C16 as stated fails on a name that is not registered, which
`DeferPublish` accepts (section 4.2: the name is not validated at call time):
the business function queues a message for "test" and returns a result, no
publisher is registered, the transaction commits, and the message is not
delivered. That does not hang on how the drain treats the entry: with no
publisher registered, no events whose publish events go to registered
publishers deliver anything. -/
theorem C16_publish_iff_commit_counterexample :
    committed (TxWrapper.TxHandler ⟨⟨none, none, none⟩, []⟩
        (fun _ => ⟨[("test", .str "Message")], .returned (.str "Hello") none⟩) ""
        ⟨⟨[], []⟩, []⟩ ⟨"/hello"⟩).events = true
    ∧ (delivered (TxWrapper.TxHandler ⟨⟨none, none, none⟩, []⟩
        (fun _ => ⟨[("test", .str "Message")], .returned (.str "Hello") none⟩) ""
        ⟨⟨[], []⟩, []⟩ ⟨"/hello"⟩).events).length = 0
    ∧ ∀ events : List TxEvent,
        (∀ name message err, TxEvent.publish name message err ∈ events →
          (([] : List (String × MessagePublisher)).lookup name).isSome = true) →
        delivered events = [] := by
  have h := TxHandler_committed ⟨⟨none, none, none⟩, []⟩
    (fun _ => ⟨[("test", .str "Message")], .returned (.str "Hello") none⟩) ""
    ⟨⟨[], []⟩, []⟩ ⟨"/hello"⟩ (.str "Hello") rfl rfl rfl
  refine ⟨?_, ?_, ?_⟩
  · rw [h.1]
    simp [committed]
  · rw [h.1]
    simp [delivered]
  · intro events
    induction events with
    | nil => intro _; rfl
    | cons e rest ih =>
      intro hreg
      have hrest := ih fun name message err hm =>
        hreg name message err (List.mem_cons_of_mem _ hm)
      cases e with
      | publish name message err =>
        have hbad := hreg name message err (List.mem_cons_self _ _)
        simp at hbad
      | begin err => simpa [delivered] using hrest
      | commit err => simpa [delivered] using hrest
      | rollback err => simpa [delivered] using hrest

/-- C16, amended: for every sequence of `DeferPublish(name, message)` calls of
one request in which every name is registered with the handler: if the
transaction commits, every queued message is handed to its named publisher
once, in registration order, and after the commit; if the transaction does
not commit, and so whenever it is rolled back (business error, panic or commit
failure), no queued message is delivered. -/
theorem C16_publish_iff_commit (wrapper : TxWrapper) (fn : Request → TxRun)
    (stack : String) (w : World) (req : Request)
    (hreg : ∀ nm ∈ (fn req).deferred, (wrapper.Publishers.lookup nm.1).isSome = true) :
    delivered (wrapper.TxHandler fn stack ⟨w, []⟩ req).events
        = (if committed (wrapper.TxHandler fn stack ⟨w, []⟩ req).events
            then (fn req).deferred else [])
    ∧ delivered (afterCommit (wrapper.TxHandler fn stack ⟨w, []⟩ req).events)
        = delivered (wrapper.TxHandler fn stack ⟨w, []⟩ req).events
    ∧ (rollbackCalls (wrapper.TxHandler fn stack ⟨w, []⟩ req).events = 0
        ∨ delivered (wrapper.TxHandler fn stack ⟨w, []⟩ req).events = []) := by
  cases hb : wrapper.DB.beginErr with
  | some e =>
    rw [TxHandler_begin_failed wrapper fn stack ⟨w, []⟩ req e hb]
    simp [delivered, committed, afterCommit, rollbackCalls]
  | none =>
    cases ho : (fn req).outcome with
    | panicked r =>
      rw [(TxHandler_panicked wrapper fn stack ⟨w, []⟩ req r hb ho).1]
      simp [delivered, committed, afterCommit, rollbackCalls]
    | returned obj err =>
      cases err with
      | some err =>
        rw [(TxHandler_failed wrapper fn stack ⟨w, []⟩ req obj err hb ho).1]
        simp [delivered, committed, afterCommit, rollbackCalls]
      | none =>
        cases hc : wrapper.DB.commitErr with
        | some e =>
          rw [(TxHandler_commit_failed wrapper fn stack ⟨w, []⟩ req obj e hb ho hc).1]
          simp [delivered, committed, afterCommit, rollbackCalls]
        | none =>
          rw [(TxHandler_committed wrapper fn stack ⟨w, []⟩ req obj hb ho hc).1]
          obtain ⟨-, d2, -⟩ := drain_no_tx wrapper.Publishers (fn req).deferred
          have d4 := delivered_drain wrapper.Publishers (fn req).deferred
          have d5 : ((fn req).deferred.filter fun nm =>
              (wrapper.Publishers.lookup nm.1).isSome) = (fn req).deferred :=
            List.filter_eq_self.mpr hreg
          rw [d5] at d4
          unfold rollbackCalls at d2
          unfold delivered at d4
          simp [delivered, committed, afterCommit, rollbackCalls, List.countP_cons, d2, d4]

/-- Witness of C16: the request of `TestDBQueueWrap` that commits: the
publisher "test" is registered, the business function queues "Message" for it
and returns a result, and "Message" is delivered to "test", once. -/
theorem C16_publish_iff_commit_witness :
    delivered (TxWrapper.TxHandler ⟨⟨none, none, none⟩, [("test", ⟨fun _ => none⟩)]⟩
        (fun _ => ⟨[("test", .str "Message")], .returned (.str "Hello") none⟩) ""
        ⟨⟨[], []⟩, []⟩ ⟨"/hello"⟩).events
      = [("test", .str "Message")] :=
  (C16_publish_iff_commit ⟨⟨none, none, none⟩, [("test", ⟨fun _ => none⟩)]⟩
    (fun _ => ⟨[("test", .str "Message")], .returned (.str "Hello") none⟩) ""
    ⟨[], []⟩ ⟨"/hello"⟩
    (by intro nm h; simp at h; subst h; rfl)).1.trans (by rfl)

end Microjson
